import Mathlib

/-!
# Verification of the Extro product-upload pipeline

A shallow embedding of `All Tabs/RestApiBasedScript.py` (class
`ProductAPIUploader`): the field coercers (`parse_json_field`,
`parse_list_field`, `parse_dimensions`, `parse_tags`, `parse_reviews`,
`parse_images`, `parse_color_options`, `parse_attachments`, `parse_meta`),
the row normalizer `transform_row_to_product`, and the batch pipeline
`upload_products_from_excel` with its statistics accumulator.

Modelling conventions:
* Python run-time values are the inductive `PyVal`; spreadsheet cells
  (which pandas `read_excel` always delivers as scalars) are `CellVal`.
  Missing values (`None` and pandas `NaN`) are both modelled by the
  `none` constructor; both satisfy `pd.isna`.
* Python `float` is modelled by `Rat` (all values appearing in this
  development are small exact decimals).
* Operations that can raise (`float(...)`, `int(...)`, `json.loads`,
  `ast.literal_eval`) return `Option`; a `try/except` block is the
  corresponding `Option` elimination.
* The HTTP sink is an external collaborator: it is a parameter
  `deliver : Product → PostResult` of the pipeline, where `PostResult`
  is either an HTTP response or a raised exception.
-/

/-- A Python run-time value, as used by the script: `None`/`NaN`, `str`,
`int`, `float` (modelled by `Rat`), `bool`, `list`, `dict`. -/
inductive PyVal where
  | none : PyVal
  | str (s : String) : PyVal
  | int (n : Int) : PyVal
  | float (q : Rat) : PyVal
  | bool (b : Bool) : PyVal
  | list (xs : List PyVal) : PyVal
  | dict (kvs : List (String × PyVal)) : PyVal

/-- A spreadsheet cell as produced by `pandas.read_excel`: always a
scalar.  `none` models an empty cell (pandas `NaN`) as well as `None`. -/
inductive CellVal where
  | none : CellVal
  | str (s : String) : CellVal
  | int (n : Int) : CellVal
  | float (q : Rat) : CellVal
  | bool (b : Bool) : CellVal
deriving DecidableEq

/-- Injection of scalar cells into Python values. -/
def CellVal.toPy : CellVal → PyVal
  | .none => .none
  | .str s => .str s
  | .int n => .int n
  | .float q => .float q
  | .bool b => .bool b

/-- One raw spreadsheet row: a mapping from column label to cell value. -/
abbrev Row := List (String × CellVal)

/-- A normalized product record: a Python dict, field name to value. -/
abbrev Product := List (String × PyVal)

/-- `pd.isna` on the values flowing through the script: true exactly for
missing values (`None` / `NaN`). -/
def isna : PyVal → Bool
  | .none => true
  | _ => false

/-- The Python comparison `value == ''`: only the empty string equals `''`. -/
def isBlank : PyVal → Bool
  | .str s => s = ""
  | _ => false

/-- Python truthiness of a value (`if value:`). -/
def pyTruthy : PyVal → Bool
  | .none => false
  | .str s => s ≠ ""
  | .int n => n ≠ 0
  | .float q => q ≠ 0
  | .bool b => b
  | .list xs => !xs.isEmpty
  | .dict kvs => !kvs.isEmpty

/-- Python `dict.get(key, default)` on an association list. -/
def dictGet (kvs : List (String × PyVal)) (k : String) (dflt : PyVal) : PyVal :=
  match kvs.lookup k with
  | some v => v
  | Option.none => dflt

/-- The numeric content of a Python value, if it has one (`bool` is a
subclass of `int` in Python, so `True` counts as `1`). -/
def toNum : PyVal → Option Rat
  | .int n => some n
  | .float q => some q
  | .bool b => some (if b then 1 else 0)
  | _ => Option.none

/-- Digit string to natural number (`"123"` to `123`). -/
def natOfDigits (l : List Char) : Nat :=
  l.foldl (fun n c => n * 10 + (c.toNat - 48)) 0

/-- Decimal rendering of a float whose value is an integer, Python style
(`5.0`).  Non-integral rationals are rendered crudely as fractions; no
value in this development depends on that case. -/
def floatRepr (q : Rat) : String :=
  if q.den = 1 then toString q.num ++ ".0"
  else toString q.num ++ "/" ++ toString q.den

mutual

/-- Python `repr` of a value (string quoting approximated: no escaping,
single quotes written via `\x27`). -/
def pyRepr : PyVal → String
  | .none => "None"
  | .bool b => if b then "True" else "False"
  | .int n => toString n
  | .float q => floatRepr q
  | .str s => "\x27" ++ s ++ "\x27"
  | .list xs => "[" ++ String.intercalate ", " (pyReprList xs) ++ "]"
  | .dict kvs => "\x7b" ++ String.intercalate ", " (pyReprDict kvs) ++ "\x7d"

/-- `repr` of the elements of a list value. -/
def pyReprList : List PyVal → List String
  | [] => []
  | v :: vs => pyRepr v :: pyReprList vs

/-- `repr` of the members of a dict value. -/
def pyReprDict : List (String × PyVal) → List String
  | [] => []
  | (k, v) :: kvs => ("\x27" ++ k ++ "\x27: " ++ pyRepr v) :: pyReprDict kvs

end

/-- Python `str(...)`: identity on strings, `repr` otherwise. -/
def pyStr : PyVal → String
  | .str s => s
  | v => pyRepr v

mutual

/-- Python value equality `==`: numeric values compare by value across
`int`/`float`/`bool`; containers compare pointwise.  (Python's dict
equality is key-set based; all dicts compared in this development are
built by the same code path, so pointwise comparison is exact for them.) -/
def pyEqv : PyVal → PyVal → Bool
  | .list xs, .list ys => pyEqvList xs ys
  | .dict xs, .dict ys => pyEqvDict xs ys
  | .str a, .str b => a = b
  | .none, .none => true
  | a, b =>
    match toNum a, toNum b with
    | some x, some y => x = y
    | _, _ => false

/-- Pointwise `==` on list values. -/
def pyEqvList : List PyVal → List PyVal → Bool
  | [], [] => true
  | x :: xs, y :: ys => pyEqv x y && pyEqvList xs ys
  | _, _ => false

/-- Pointwise `==` on dict values. -/
def pyEqvDict : List (String × PyVal) → List (String × PyVal) → Bool
  | [], [] => true
  | (k, v) :: xs, (k2, v2) :: ys => k = k2 && pyEqv v v2 && pyEqvDict xs ys
  | _, _ => false

end

/-- Whitespace for Python `str.strip()` and for the JSON lexer. -/
def isWs (c : Char) : Bool :=
  c = ' ' || c = '\t' || c = '\n' || c = '\r'

/-- Python `str.strip()` on a character list. -/
def stripList (l : List Char) : List Char :=
  ((l.dropWhile isWs).reverse.dropWhile isWs).reverse

/-- Python `str.strip()`. -/
def pyStrip (s : String) : String :=
  ⟨stripList s.toList⟩

/-- Python `str.split(",")` on a character list: split at every comma,
keeping empty segments (`"".split(",") == [""]`). -/
def splitOnComma : List Char → List (List Char)
  | [] => [[]]
  | c :: rest =>
    let r := splitOnComma rest
    if c = ',' then [] :: r
    else
      match r with
      | s :: ss => (c :: s) :: ss
      | [] => [[c]]

/-- Python `str.split(",")`. -/
def pySplitComma (s : String) : List String :=
  (splitOnComma s.toList).map fun cs => ⟨cs⟩

/-- Exponent suffix of a numeric literal (`e5`, `E-3`, or nothing).
Fails only when an `e`/`E` is present but malformed. -/
def parseExpPart : List Char → Option (Int × List Char)
  | 'e' :: r => parseExpAfterE r
  | 'E' :: r => parseExpAfterE r
  | l => some (0, l)

where parseExpAfterE (r : List Char) : Option (Int × List Char) :=
  let (es, r1) : Int × List Char :=
    match r with
    | '-' :: rr => (-1, rr)
    | '+' :: rr => (1, rr)
    | _ => (1, r)
  let ed := r1.takeWhile Char.isDigit
  if ed.isEmpty then Option.none
  else some (es * (natOfDigits ed : Int), r1.dropWhile Char.isDigit)

/-- The rational value of a decimal literal `sgn ip.fp * 10^ex`,
computed as an explicit quotient so that it evaluates by reduction. -/
def decimalVal (sgn : Int) (ip fp : List Char) (ex : Int) : Rat :=
  let m : Int := sgn * ((natOfDigits ip * 10 ^ fp.length + natOfDigits fp : Nat) : Int)
  let e : Int := ex - (fp.length : Int)
  if 0 ≤ e then ((m * (10 : Int) ^ e.toNat : Int) : Rat)
  else mkRat m ((10 : Nat) ^ (-e).toNat)

/-- Python `float(string)` after whitespace stripping: optional sign,
decimal digits with optional fraction and exponent.  (`inf`, `nan` and
digit-group underscores are not modelled.) -/
def parseFloatChars (l : List Char) : Option Rat :=
  let (sgn, l1) : Int × List Char :=
    match l with
    | '-' :: r => (-1, r)
    | '+' :: r => (1, r)
    | _ => (1, l)
  let ip := l1.takeWhile Char.isDigit
  let l2 := l1.dropWhile Char.isDigit
  let (fp, l3) : List Char × List Char :=
    match l2 with
    | '.' :: r => (r.takeWhile Char.isDigit, r.dropWhile Char.isDigit)
    | _ => ([], l2)
  if ip.isEmpty && fp.isEmpty then Option.none
  else
    match parseExpPart l3 with
    | some (ex, l4) =>
      if l4.isEmpty then some (decimalVal sgn ip fp ex) else Option.none
    | Option.none => Option.none

/-- Python `float(value)`: numbers and booleans convert, strings are
parsed (stripped of surrounding whitespace first), everything else
raises (`Option.none`). -/
def pyFloat : PyVal → Option Rat
  | .int n => some n
  | .float q => some q
  | .bool b => some (if b then 1 else 0)
  | .str s => parseFloatChars (stripList s.toList)
  | _ => Option.none

/-- Python `int(string)` after whitespace stripping: optional sign and
decimal digits only (`int("5.5")` raises). -/
def parseIntChars (l : List Char) : Option Int :=
  let (sgn, l1) : Int × List Char :=
    match l with
    | '-' :: r => (-1, r)
    | '+' :: r => (1, r)
    | _ => (1, l)
  if l1.isEmpty then Option.none
  else if l1.all Char.isDigit then some (sgn * (natOfDigits l1 : Int))
  else Option.none

/-- Python `int(value)`: ints pass through, floats truncate toward zero,
booleans convert, strings are parsed, everything else raises. -/
def pyInt : PyVal → Option Int
  | .int n => some n
  | .float q => some (q.num.tdiv (q.den : Int))
  | .bool b => some (if b then 1 else 0)
  | .str s => parseIntChars (stripList s.toList)
  | _ => Option.none

/-- Drop a fixed expected prefix of a character list. -/
def dropToken (pat l : List Char) : Option (List Char) :=
  match pat, l with
  | [], rest => some rest
  | p :: pp, c :: cc => if c = p then dropToken pp cc else Option.none
  | _ :: _, [] => Option.none

/-- Value of a hex digit, if the character is one. -/
def hexVal (c : Char) : Option Nat :=
  if '0' ≤ c ∧ c ≤ '9' then some (c.toNat - 48)
  else if 'a' ≤ c ∧ c ≤ 'f' then some (c.toNat - 87)
  else if 'A' ≤ c ∧ c ≤ 'F' then some (c.toNat - 55)
  else Option.none

/-- The single-quote character, written without an apostrophe literal. -/
def squote : Char := Char.ofNat 39

/-- Body of a quoted string up to the closing quote `q`, decoding the
usual escapes (`\n`, `\t`, `\r`, `\b`, `\f`, `\/`, `\\`, `\"`, `\uXXXX`). -/
def parseStrBody (q : Char) : List Char → Option (List Char × List Char)
  | [] => Option.none
  | '\\' :: 'u' :: h1 :: h2 :: h3 :: h4 :: rest => do
    let a ← hexVal h1
    let b ← hexVal h2
    let c ← hexVal h3
    let d ← hexVal h4
    let (s, r) ← parseStrBody q rest
    some (Char.ofNat (((a * 16 + b) * 16 + c) * 16 + d) :: s, r)
  | '\\' :: e :: rest => do
    let c ←
      if e = 'n' then some '\n'
      else if e = 't' then some '\t'
      else if e = 'r' then some '\r'
      else if e = 'b' then some (Char.ofNat 8)
      else if e = 'f' then some (Char.ofNat 12)
      else if e = '/' ∨ e = '\\' ∨ e = '"' ∨ e = squote then some e
      else Option.none
    let (s, r) ← parseStrBody q rest
    some (c :: s, r)
  | c :: rest =>
    if c = q then some ([], rest)
    else do
      let (s, r) ← parseStrBody q rest
      some (c :: s, r)

/-- Skip lexical whitespace. -/
def skipWs (l : List Char) : List Char := l.dropWhile isWs

/-- A number token (JSON / Python literal syntax): optional sign, integer
part, optional fraction and exponent.  Integer literals yield `int`,
anything with a fraction or exponent yields `float`. -/
def parseNum (l : List Char) : Option (PyVal × List Char) :=
  let (sgn, l1) : Int × List Char :=
    match l with
    | '-' :: r => (-1, r)
    | '+' :: r => (1, r)
    | _ => (1, l)
  let ip := l1.takeWhile Char.isDigit
  let l2 := l1.dropWhile Char.isDigit
  if ip.isEmpty then Option.none
  else
    match l2 with
    | '.' :: r =>
      let fp := r.takeWhile Char.isDigit
      let l3 := r.dropWhile Char.isDigit
      if fp.isEmpty then Option.none
      else
        match parseExpPart l3 with
        | some (ex, l4) => some (.float (decimalVal sgn ip fp ex), l4)
        | Option.none => Option.none
    | 'e' :: _ =>
      match parseExpPart l2 with
      | some (ex, l4) => some (.float (decimalVal sgn ip [] ex), l4)
      | Option.none => Option.none
    | 'E' :: _ =>
      match parseExpPart l2 with
      | some (ex, l4) => some (.float (decimalVal sgn ip [] ex), l4)
      | Option.none => Option.none
    | _ => some (.int (sgn * (natOfDigits ip : Int)), l2)

mutual

/-- One JSON value (or, with `pyMode`, one Python literal), by recursive
descent with a fuel bound.  `pyMode` additionally accepts `True`,
`False`, `None`, single-quoted strings and trailing commas, as
`ast.literal_eval` does (tuples and sets are not modelled). -/
def parseVal (pyMode : Bool) : Nat → List Char → Option (PyVal × List Char)
  | 0, _ => Option.none
  | fuel + 1, l =>
    match skipWs l with
    | '"' :: rest =>
      match parseStrBody '"' rest with
      | some (s, r) => some (.str ⟨s⟩, r)
      | Option.none => Option.none
    | '[' :: rest =>
      match skipWs rest with
      | ']' :: r => some (.list [], r)
      | _ => match parseElems pyMode fuel rest with
        | some (vs, r) => some (.list vs, r)
        | Option.none => Option.none
    | '\x7b' :: rest =>
      match skipWs rest with
      | '\x7d' :: r => some (.dict [], r)
      | _ => match parseMembers pyMode fuel rest with
        | some (kvs, r) => some (.dict kvs, r)
        | Option.none => Option.none
    | l' =>
      if pyMode then
        match l' with
        | c :: rest =>
          if c = squote then
            match parseStrBody squote rest with
            | some (s, r) => some (.str ⟨s⟩, r)
            | Option.none => Option.none
          else
            match dropToken "True".toList l' with
            | some r => some (.bool true, r)
            | Option.none =>
              match dropToken "False".toList l' with
              | some r => some (.bool false, r)
              | Option.none =>
                match dropToken "None".toList l' with
                | some r => some (.none, r)
                | Option.none => parseNum l'
        | [] => Option.none
      else
        match dropToken "true".toList l' with
        | some r => some (.bool true, r)
        | Option.none =>
          match dropToken "false".toList l' with
          | some r => some (.bool false, r)
          | Option.none =>
            match dropToken "null".toList l' with
            | some r => some (.none, r)
            | Option.none => parseNum l'

/-- The elements of a non-empty array, starting just after `[`. -/
def parseElems (pyMode : Bool) : Nat → List Char → Option (List PyVal × List Char)
  | 0, _ => Option.none
  | fuel + 1, l => do
    let (v, r) ← parseVal pyMode fuel l
    match skipWs r with
    | ',' :: r2 =>
      if pyMode then
        match skipWs r2 with
        | ']' :: r3 => some ([v], r3)
        | _ => do
          let (vs, r3) ← parseElems pyMode fuel r2
          some (v :: vs, r3)
      else do
        let (vs, r3) ← parseElems pyMode fuel r2
        some (v :: vs, r3)
    | ']' :: r2 => some ([v], r2)
    | _ => Option.none

/-- The members of a non-empty object, starting just after the opening
brace.  Keys are quoted strings. -/
def parseMembers (pyMode : Bool) : Nat → List Char → Option (List (String × PyVal) × List Char)
  | 0, _ => Option.none
  | fuel + 1, l => do
    let (k, r) ←
      match skipWs l with
      | '"' :: rest => parseStrBody '"' rest
      | c :: rest =>
        if pyMode ∧ c = squote then parseStrBody squote rest else Option.none
      | [] => Option.none
    let (v, r2) ←
      match skipWs r with
      | ':' :: r1 => parseVal pyMode fuel r1
      | _ => Option.none
    match skipWs r2 with
    | ',' :: r3 =>
      if pyMode then
        match skipWs r3 with
        | '\x7d' :: r4 => some ([(⟨k⟩, v)], r4)
        | _ => do
          let (kvs, r4) ← parseMembers pyMode fuel r3
          some ((⟨k⟩, v) :: kvs, r4)
      else do
        let (kvs, r4) ← parseMembers pyMode fuel r3
        some ((⟨k⟩, v) :: kvs, r4)
    | '\x7d' :: r3 => some ([(⟨k⟩, v)], r3)
    | _ => Option.none

end

/-- `json.loads`: parse one JSON document, requiring only whitespace
after it. -/
def json_loads (s : String) : Option PyVal :=
  match parseVal false (s.length + 2) s.toList with
  | some (v, rest) => if (skipWs rest).isEmpty then some v else Option.none
  | Option.none => Option.none

/-- `ast.literal_eval`, restricted to the literal forms the script's
data can use: numbers, strings, booleans, `None`, lists, dicts. -/
def ast_literal_eval (s : String) : Option PyVal :=
  match parseVal true (s.length + 2) s.toList with
  | some (v, rest) => if (skipWs rest).isEmpty then some v else Option.none
  | Option.none => Option.none

/-- `ProductAPIUploader.parse_json_field`: missing/blank cell gives `{}`;
a string is parsed as JSON, then as a Python literal, then defaults to
`{}`; a dict passes through; anything else gives `{}`. -/
def parse_json_field (field_value : PyVal) : PyVal :=
  if isna field_value || isBlank field_value then .dict []
  else
    match field_value with
    | .str s =>
      match json_loads s with
      | some v => v
      | Option.none =>
        match ast_literal_eval s with
        | some v => v
        | Option.none => .dict []
    | .dict kvs => .dict kvs
    | _ => .dict []

/-- `ProductAPIUploader.parse_list_field`: missing/blank gives `[]`; a
string is parsed as JSON first (a non-list result is wrapped in a
one-element list), and only if that parse fails is it split on commas
with each segment stripped and empty segments dropped; a list passes
through; anything else gives `[]`. -/
def parse_list_field (field_value : PyVal) : List PyVal :=
  if isna field_value || isBlank field_value then []
  else
    match field_value with
    | .str s =>
      match json_loads s with
      | some (.list xs) => xs
      | some v => [v]
      | Option.none =>
        (((pySplitComma s).map pyStrip).filter (fun t => t ≠ "")).map .str
    | .list xs => xs
    | _ => []

/-- The `default_dimensions` dict of `parse_dimensions` (integer zeros). -/
def defaultDims : PyVal :=
  .dict [("width", .int 0), ("height", .int 0), ("depth", .int 0)]

/-- The head of the `try:` block of `parse_dimensions`:
`dimensions = json.loads(v)` for a string, the value itself otherwise
(a `json.loads` failure raises out of the block). -/
def jsonOrSelf (v : PyVal) : Option PyVal :=
  match v with
  | .str s => json_loads s
  | w => some w

/-- The tail of the `try:` block of `parse_dimensions`: for a dict,
build the dict literal with the three `float(...)` conversions — a
failure of any one raises out of the whole block; for a non-dict the
copied default is returned unchanged. -/
def dimsUpdate (dims : PyVal) : Option PyVal :=
  match dims with
  | .dict kvs =>
    (pyFloat (dictGet kvs "width" (.int 0))).bind fun w =>
      (pyFloat (dictGet kvs "height" (.int 0))).bind fun h =>
        (pyFloat (dictGet kvs "depth" (.int 0))).bind fun d =>
          some (.dict [("width", .float w), ("height", .float h), ("depth", .float d)])
  | _ => some defaultDims

/-- `ProductAPIUploader.parse_dimensions`.  The whole body sits in one
`try:`, so a `float(...)` failure on any one sub-key aborts the dict
literal under construction and the `except:` returns the all-zero
default. -/
def parse_dimensions (dimensions_value : PyVal) : PyVal :=
  if isna dimensions_value || isBlank dimensions_value then defaultDims
  else
    match (jsonOrSelf dimensions_value).bind dimsUpdate with
    | some r => r
    | Option.none => defaultDims

/-- `ProductAPIUploader.parse_tags`: parse as list, then
`[{"tag": str(tag).strip()} for tag in tags_list if str(tag).strip()]`.
Nothing in the body can raise, so the `except:` branch is dead. -/
def parse_tags (tags_value : PyVal) : List PyVal :=
  if isna tags_value || isBlank tags_value then []
  else
    let tags_list := parse_list_field tags_value
    ((tags_list.map fun t => pyStrip (pyStr t)).filter fun s => s ≠ "").map
      fun s => .dict [("tag", .str s)]

/-- The loop body of `parse_reviews`: non-dict elements are skipped,
dict elements are filled into the fixed sub-schema; an `int(...)`
failure on a rating raises out of the whole loop (`Option.none`). -/
def formatReviews (today : String) : List PyVal → Option (List PyVal)
  | [] => some []
  | .dict kvs :: rs =>
    (pyInt (dictGet kvs "rating" (.int 0))).bind fun rating =>
      (formatReviews today rs).bind fun rest =>
        some (.dict [("rating", .int rating),
          ("comment", .str (pyStr (dictGet kvs "comment" (.str "")))),
          ("date", .str (pyStr (dictGet kvs "date" (.str today)))),
          ("reviewerName", .str (pyStr (dictGet kvs "reviewerName" (.str "Anonymous")))),
          ("reviewerEmail", .str (pyStr (dictGet kvs "reviewerEmail" (.str ""))))] :: rest)
  | _ :: rs => formatReviews today rs

/-- `ProductAPIUploader.parse_reviews`.  `today` models
`datetime.now().strftime("%Y-%m-%d")`, the default review date. -/
def parse_reviews (today : String) (reviews_value : PyVal) : List PyVal :=
  if isna reviews_value || isBlank reviews_value then []
  else
    match parse_json_field reviews_value with
    | .list rs =>
      match formatReviews today rs with
      | some out => out
      | Option.none => []
    | _ => []

/-- The fixed base of the fallback image URL template. -/
def imageBase : String :=
  "https://raw.githubusercontent.com/rakeshsharma869/Extro_related_stuffs/refs/heads/master/All%20Tabs/"

/-- Python `str.replace(" ", "%20")` on a character list. -/
def replaceSpaceChars : List Char → List Char
  | [] => []
  | c :: r => (if c = ' ' then ['%', '2', '0'] else [c]) ++ replaceSpaceChars r

/-- The fallback image URL
`f"{base}/{safe_category}/{safe_sku}.png"` built from the stripped,
space-encoded category and the stripped SKU. -/
def fallbackImageUrl (category sku : PyVal) : String :=
  imageBase ++ (⟨replaceSpaceChars (stripList (pyStr category).toList)⟩ : String)
    ++ "/" ++ pyStrip (pyStr sku) ++ ".png"

/-- `ProductAPIUploader.parse_images`.  The isna/blank guard in the
source is commented out.  If the parsed list is empty and both
`category` and `sku` are truthy, one fallback URL is appended; every
element is then stripped, empty ones dropped, and the rest wrapped as
`{"imageUrl": ...}`.  Nothing in the body can raise, so the `except:`
branch is dead. -/
def parse_images (images_value category sku : PyVal) : List PyVal :=
  let images_list := parse_list_field images_value
  let images_list :=
    if images_list.isEmpty && pyTruthy category && pyTruthy sku then
      images_list ++ [.str (fallbackImageUrl category sku)]
    else images_list
  ((images_list.map fun img => pyStrip (pyStr img)).filter fun s => s ≠ "").map
    fun s => .dict [("imageUrl", .str s)]

/-- `ProductAPIUploader.parse_color_options`: like `parse_tags` with key
`"colorOption"`. -/
def parse_color_options (colors_value : PyVal) : List PyVal :=
  if isna colors_value || isBlank colors_value then []
  else
    let colors_list := parse_list_field colors_value
    ((colors_list.map fun c => pyStrip (pyStr c)).filter fun s => s ≠ "").map
      fun s => .dict [("colorOption", .str s)]

/-- The loop body of `parse_attachments`: dict elements are filled into
the fixed sub-schema, others skipped; nothing can raise. -/
def formatAttachments : List PyVal → List PyVal
  | [] => []
  | .dict kvs :: rest =>
    .dict [("attachmentType", .str (pyStr (dictGet kvs "attachmentType" (.str "document")))),
      ("attachmentLink", .str (pyStr (dictGet kvs "attachmentLink" (.str ""))))]
      :: formatAttachments rest
  | _ :: rest => formatAttachments rest

/-- `ProductAPIUploader.parse_attachments`. -/
def parse_attachments (attachments_value : PyVal) : List PyVal :=
  if isna attachments_value || isBlank attachments_value then []
  else
    match parse_json_field attachments_value with
    | .list xs => formatAttachments xs
    | _ => []

/-- The default meta object `{"barcode": "", "qrCode": ""}`. -/
def defaultMeta : PyVal := .dict [("barcode", .str ""), ("qrCode", .str "")]

/-- `ProductAPIUploader.parse_meta`. -/
def parse_meta (meta_value : PyVal) : PyVal :=
  if isna meta_value || isBlank meta_value then defaultMeta
  else
    match parse_json_field meta_value with
    | .dict kvs =>
      .dict [("barcode", .str (pyStr (dictGet kvs "barcode" (.str "")))),
        ("qrCode", .str (pyStr (dictGet kvs "qrCode" (.str ""))))]
    | _ => defaultMeta

/-- Access to one raw row, as `transform_row_to_product` sees it:
`g field = Option.none` models an absent column, `some v` a present cell
(`v = PyVal.none` being an empty cell). -/
def Getter := String → Option PyVal

/-- The getter of a concrete row. -/
def rowGetter (row : Row) : Getter :=
  fun k => (row.lookup k).map CellVal.toPy

/-- The `str` converter of `safe_get` (total). -/
def strConv (v : PyVal) : Option PyVal := some (.str (pyStr v))

/-- The `float` converter of `safe_get` (raises on bad input). -/
def floatConv (v : PyVal) : Option PyVal := (pyFloat v).map .float

/-- The `int` converter of `safe_get` (raises on bad input). -/
def intConv (v : PyVal) : Option PyVal := (pyInt v).map .int

/-- The `safe_get` helper inside `transform_row_to_product`:
`row.get(field, default)`, then the NA check (note: no blank-string
check here), then the converter with its `try/except` fallback. -/
def safe_get (g : Getter) (field : String) (dflt : PyVal)
    (conv : PyVal → Option PyVal) : PyVal :=
  let value := (g field).getD dflt
  if isna value then dflt
  else (conv value).getD dflt

/-- `row.get(field)` with pandas' implicit `None` default, used for the
composite fields. -/
def rawGet (g : Getter) (field : String) : PyVal :=
  (g field).getD .none

/-- `ProductAPIUploader.transform_row_to_product`, over an abstract
getter: builds the product dict literally in source order.  `today`
models `datetime.now().strftime("%Y-%m-%d")`. -/
def transformG (today : String) (g : Getter) : Product :=
  [("title", safe_get g "Title" (.str "") strConv),
   ("description", safe_get g "Description" (.str "") strConv),
   ("category", safe_get g "Category" (.str "") strConv),
   ("subcategory", safe_get g "SubCategory" (.str "") strConv),
   ("price", safe_get g "Price" (.int 0) floatConv),
   ("discountPercentage", safe_get g "Discount Percentage" (.int 0) floatConv),
   ("rating", safe_get g "Rating" (.int 0) floatConv),
   ("stock", safe_get g "Stock" (.int 0) intConv),
   ("brand", safe_get g "Brand" (.str "") strConv),
   ("sku", safe_get g "Sku" (.str "") strConv),
   ("weight", safe_get g "Weight" (.int 0) floatConv),
   ("warrantyInformation", safe_get g "Warranty Information" (.str "") strConv),
   ("shippingInformation", safe_get g "Shipping Information" (.str "") strConv),
   ("availabilityStatus", safe_get g "Availability Status" (.str "In Stock") strConv),
   ("returnPolicy", safe_get g "Return Policy" (.str "") strConv),
   ("minimumOrderQuantity", safe_get g "Minimum Order Quantity" (.int 1) intConv),
   ("thumbnail", safe_get g "Thumbnail" (.str "") strConv),
   ("version", safe_get g "Version" (.str "1.0") strConv),
   ("dimensions", parse_dimensions (rawGet g "Dimensions")),
   ("tags", .list (parse_tags (rawGet g "Tags"))),
   ("reviews", .list (parse_reviews today (rawGet g "Reviews"))),
   ("images", .list (parse_images (rawGet g "Images") (rawGet g "Category") (rawGet g "Sku"))),
   ("colorOptions", .list (parse_color_options (rawGet g "Color Options"))),
   ("attachments", .list (parse_attachments (rawGet g "Attachments"))),
   ("meta", parse_meta (rawGet g "Meta"))]

/-- `ProductAPIUploader.transform_row_to_product` on a concrete row. -/
def transform_row_to_product (today : String) (row : Row) : Product :=
  transformG today (rowGetter row)

/-- `product_data.get(key)` (`None` default). -/
def productGet (p : Product) (k : String) : PyVal :=
  match p.lookup k with
  | some v => v
  | Option.none => .none

/-- What the delivery collaborator does with one record: an HTTP
response, or a raised exception (network error etc.). -/
inductive PostResult where
  | response (status : Nat) (text : String) : PostResult
  | exn (msg : String) : PostResult

/-- `ProductAPIUploader.post_product`: status 200 or 201 is success, any
other status is failure, and any exception from the delivery call is
caught and turned into failure. -/
def post_product (deliver : Product → PostResult) (product_data : Product) : Bool :=
  match deliver product_data with
  | .response status _ => status == 200 || status == 201
  | .exn _ => false

/-- The `stats` accumulator of `upload_products_from_excel`. -/
structure Stats where
  total_products : Nat
  successful_uploads : Nat
  failed_uploads : Nat
  errors : List String
deriving DecidableEq, Repr

/-- Pipeline state: the statistics plus (as an observation of the
collaborator boundary) the sequence of records passed to the delivery
capability, in call order. -/
structure UploadState where
  stats : Stats
  calls : List Product

/-- The per-row body of the upload loop: transform, gate on the required
`title` field (counting a gated row as a failed upload), otherwise call
the delivery capability exactly once and count the outcome.  Nothing in
the body can raise in this model, so the per-row `except` branch (which
would also count a failure and record an error message) is dead. -/
def processRow (deliver : Product → PostResult) (today : String)
    (st : UploadState) (row : Row) : UploadState :=
  let product_data := transform_row_to_product today row
  if !pyTruthy (productGet product_data "title") then
    { st with stats := { st.stats with failed_uploads := st.stats.failed_uploads + 1 } }
  else
    let st := { st with calls := st.calls ++ [product_data] }
    if post_product deliver product_data then
      { st with stats := { st.stats with successful_uploads := st.stats.successful_uploads + 1 } }
    else
      { st with stats := { st.stats with failed_uploads := st.stats.failed_uploads + 1 } }

/-- `range(0, len(rows), bs)` slicing with `bs = k + 1`: contiguous
batches of size at most `k + 1`. -/
def batchesGo (k : Nat) : List α → List (List α)
  | [] => []
  | x :: xs => ((x :: xs).take (k + 1)) :: batchesGo k (xs.drop k)
termination_by l => l.length
decreasing_by simp; omega

/-- The batch slicing of `upload_products_from_excel` for a positive
batch size `bs`. -/
def batches (bs : Nat) (xs : List α) : List (List α) :=
  batchesGo (bs - 1) xs

/-- `ProductAPIUploader.upload_products_from_excel`, given the rows the
Excel reader produced.  A zero batch size makes `range` raise; after the
loop the success-rate log line divides by `total_products`, so an empty
input raises `ZeroDivisionError` (re-raised by the outer handler). -/
def upload_products_from_excel (deliver : Product → PostResult) (today : String)
    (rows : List Row) (batch_size : Nat) : Except String (Stats × List Product) :=
  if batch_size = 0 then .error "ValueError: range() arg 3 must not be zero"
  else
    let init : UploadState := ⟨⟨rows.length, 0, 0, []⟩, []⟩
    let final := (batches batch_size rows).foldl
      (fun st batch => batch.foldl (processRow deliver today) st) init
    if final.stats.total_products = 0 then
      .error "ZeroDivisionError: division by zero"
    else
      .ok (final.stats, final.calls)

/-- The success rate logged at run end:
`successful_uploads / total_products * 100`. -/
def successRate (s : Stats) : Rat :=
  (s.successful_uploads : Rat) / (s.total_products : Rat) * 100

/-- A row passes the validation gate: its normalized `title` is truthy. -/
def titledRow (today : String) (row : Row) : Bool :=
  pyTruthy (productGet (transform_row_to_product today row) "title")

/-- A row ends up delivered: it passes the gate and the delivery call
succeeds. -/
def okRow (deliver : Product → PostResult) (today : String) (row : Row) : Bool :=
  titledRow today row && post_product deliver (transform_row_to_product today row)

theorem foldl_foldl_flatten (f : β → α → β) :
    ∀ (L : List (List α)) (b : β),
      L.foldl (fun acc l => l.foldl f acc) b = L.flatten.foldl f b := by
  intro L
  induction L with
  | nil => intro b; rfl
  | cons l L ih => intro b; simp [List.foldl_append, ih]

theorem batchesGo_flatten (k : Nat) :
    ∀ (xs : List α), (batchesGo k xs).flatten = xs := by
  intro xs
  induction xs using batchesGo.induct k with
  | case1 => rw [batchesGo]; rfl
  | case2 x xs ih =>
    rw [batchesGo]
    simp only [List.flatten_cons, ih]
    show x :: xs.take k ++ xs.drop k = x :: xs
    simp [List.take_append_drop]

theorem batchesGo_sizes (k : Nat) :
    ∀ (xs : List α), ∀ b ∈ batchesGo k xs, b.length ≤ k + 1 := by
  intro xs
  induction xs using batchesGo.induct k with
  | case1 => intro b hb; rw [batchesGo] at hb; simp at hb
  | case2 x xs ih =>
    intro b hb
    rw [batchesGo] at hb
    rcases List.mem_cons.mp hb with h | h
    · subst h; simpa using List.length_take_le (k + 1) (x :: xs)
    · exact ih b h

theorem processRow_total (d : Product → PostResult) (t : String)
    (st : UploadState) (row : Row) :
    (processRow d t st row).stats.total_products = st.stats.total_products := by
  simp only [processRow]
  split
  · rfl
  · split <;> rfl

theorem processRow_succ (d : Product → PostResult) (t : String)
    (st : UploadState) (row : Row) :
    (processRow d t st row).stats.successful_uploads =
      st.stats.successful_uploads + (if okRow d t row then 1 else 0) := by
  simp only [processRow, okRow, titledRow]
  by_cases h1 : pyTruthy (productGet (transform_row_to_product t row) "title")
  · by_cases h2 : post_product d (transform_row_to_product t row) <;> simp [h1, h2]
  · simp [h1]

theorem processRow_fail (d : Product → PostResult) (t : String)
    (st : UploadState) (row : Row) :
    (processRow d t st row).stats.failed_uploads =
      st.stats.failed_uploads + (if okRow d t row then 0 else 1) := by
  simp only [processRow, okRow, titledRow]
  by_cases h1 : pyTruthy (productGet (transform_row_to_product t row) "title")
  · by_cases h2 : post_product d (transform_row_to_product t row) <;> simp [h1, h2]
  · simp [h1]

theorem processRow_calls (d : Product → PostResult) (t : String)
    (st : UploadState) (row : Row) :
    (processRow d t st row).calls =
      st.calls ++ (if titledRow t row then [transform_row_to_product t row] else []) := by
  simp only [processRow, titledRow]
  by_cases h1 : pyTruthy (productGet (transform_row_to_product t row) "title")
  · by_cases h2 : post_product d (transform_row_to_product t row) <;> simp [h1, h2]
  · simp [h1]

theorem foldl_total (d : Product → PostResult) (t : String) :
    ∀ (rows : List Row) (st : UploadState),
      (rows.foldl (processRow d t) st).stats.total_products = st.stats.total_products := by
  intro rows
  induction rows with
  | nil => intro st; rfl
  | cons r rows ih => intro st; simp [List.foldl_cons, ih, processRow_total]

theorem foldl_succ (d : Product → PostResult) (t : String) :
    ∀ (rows : List Row) (st : UploadState),
      (rows.foldl (processRow d t) st).stats.successful_uploads =
        st.stats.successful_uploads + rows.countP (okRow d t) := by
  intro rows
  induction rows with
  | nil => intro st; simp
  | cons r rows ih =>
    intro st
    simp only [List.foldl_cons, ih, processRow_succ, List.countP_cons]
    by_cases h : okRow d t r <;> simp [h] <;> omega

theorem foldl_fail (d : Product → PostResult) (t : String) :
    ∀ (rows : List Row) (st : UploadState),
      (rows.foldl (processRow d t) st).stats.failed_uploads =
        st.stats.failed_uploads + rows.countP (fun r => !okRow d t r) := by
  intro rows
  induction rows with
  | nil => intro st; simp
  | cons r rows ih =>
    intro st
    simp only [List.foldl_cons, ih, processRow_fail, List.countP_cons]
    by_cases h : okRow d t r <;> simp [h] <;> omega

theorem foldl_calls (d : Product → PostResult) (t : String) :
    ∀ (rows : List Row) (st : UploadState),
      (rows.foldl (processRow d t) st).calls =
        st.calls ++ (rows.filter (titledRow t)).map (transform_row_to_product t) := by
  intro rows
  induction rows with
  | nil => intro st; simp
  | cons r rows ih =>
    intro st
    simp only [List.foldl_cons, ih, processRow_calls, List.filter_cons]
    by_cases h : titledRow t r <;> simp [h]

theorem countP_ok_add_not (p : α → Bool) :
    ∀ (l : List α), l.countP p + l.countP (fun a => !p a) = l.length := by
  intro l
  induction l with
  | nil => rfl
  | cons a l ih =>
    simp only [List.countP_cons, List.length_cons]
    by_cases h : p a <;> simp [h] <;> omega

/-- For a positive batch size and a non-empty input,
`upload_products_from_excel` returns the state of the plain
left-to-right fold over all rows. -/
theorem upload_ok_eq (d : Product → PostResult) (t : String) (rows : List Row)
    (bs : Nat) (hbs : 0 < bs) (hne : rows ≠ []) :
    upload_products_from_excel d t rows bs =
      .ok ((rows.foldl (processRow d t) ⟨⟨rows.length, 0, 0, []⟩, []⟩).stats,
           (rows.foldl (processRow d t) ⟨⟨rows.length, 0, 0, []⟩, []⟩).calls) := by
  rw [upload_products_from_excel, if_neg (by omega : ¬ bs = 0)]
  have hb : (batches bs rows).foldl
      (fun st batch => batch.foldl (processRow d t) st)
      (⟨⟨rows.length, 0, 0, []⟩, []⟩ : UploadState) =
      rows.foldl (processRow d t) ⟨⟨rows.length, 0, 0, []⟩, []⟩ := by
    rw [foldl_foldl_flatten, batches, batchesGo_flatten]
  simp only [hb, foldl_total]
  rw [if_neg]
  simpa using hne

/-- A delivery capability that always returns HTTP 201. -/
def alwaysCreated : Product → PostResult := fun _ => .response 201 "created"

/-- A delivery capability that deterministically raises a network
exception on the record titled `P3` and returns HTTP 201 otherwise. -/
def failOnP3 : Product → PostResult := fun p =>
  match productGet p "title" with
  | .str s => if s = "P3" then .exn "connection reset" else .response 201 "created"
  | _ => .response 201 "created"

/-- A one-column row carrying only a title. -/
def titleRow (s : String) : Row := [("Title", CellVal.str s)]

/-- Five rows titled `P1` .. `P5`. -/
def fiveRows : List Row :=
  [titleRow "P1", titleRow "P2", titleRow "P3", titleRow "P4", titleRow "P5"]

/-- Twelve titled rows. -/
def twelveRows : List Row :=
  [titleRow "R1", titleRow "R2", titleRow "R3", titleRow "R4", titleRow "R5",
   titleRow "R6", titleRow "R7", titleRow "R8", titleRow "R9", titleRow "R10",
   titleRow "R11", titleRow "R12"]

/-- **C4** (confirmed).  Any exception raised by the delivery capability
is caught inside `post_product` and becomes a failure for that row only:
the run never aborts, each row's outcome is a function of that row alone
(`successful_uploads` counts exactly the rows that pass the gate and
deliver, `failed_uploads` the rest), and in the concrete scenario where
the capability raises deterministically on row 3 of 5, rows 1, 2, 4, 5
are delivered, row 3 is failed, and the report total is 5. -/
theorem C4_per_row_isolation :
    (∀ (d : Product → PostResult) (p : Product) (msg : String),
       d p = .exn msg → post_product d p = false)
    ∧ (∀ (d : Product → PostResult) (t : String) (rows : List Row) (bs : Nat),
       0 < bs → rows ≠ [] →
       ∃ s calls, upload_products_from_excel d t rows bs = .ok (s, calls) ∧
         s.successful_uploads = rows.countP (okRow d t) ∧
         s.failed_uploads = rows.countP (fun r => !okRow d t r) ∧
         s.total_products = rows.length)
    ∧ upload_products_from_excel failOnP3 "2024-01-01" fiveRows 5 =
        .ok (⟨5, 4, 1, []⟩, fiveRows.map (transform_row_to_product "2024-01-01")) := by
  refine ⟨?_, ?_, ?_⟩
  · intro d p msg h
    simp [post_product, h]
  · intro d t rows bs hbs hne
    refine ⟨_, _, upload_ok_eq d t rows bs hbs hne, ?_, ?_, ?_⟩
    · rw [foldl_succ]; exact Nat.zero_add _
    · rw [foldl_fail]; exact Nat.zero_add _
    · rw [foldl_total]
  · rw [upload_ok_eq _ _ _ _ (by omega) (by simp [fiveRows])]
    rfl

/-- **C4 witness**: the universal part of `C4_per_row_isolation` applied
to the concrete five-row scenario with the row-3-failing capability. -/
theorem C4_witness :
    (0 : Nat) < 5 ∧ fiveRows ≠ [] ∧
    (∃ s calls,
      upload_products_from_excel failOnP3 "2024-01-01" fiveRows 5 = .ok (s, calls) ∧
        s.successful_uploads = fiveRows.countP (okRow failOnP3 "2024-01-01") ∧
        s.failed_uploads = fiveRows.countP (fun r => !okRow failOnP3 "2024-01-01" r) ∧
        s.total_products = fiveRows.length) :=
  ⟨by omega, by simp [fiveRows],
    C4_per_row_isolation.2.1 failOnP3 "2024-01-01" fiveRows 5 (by omega) (by simp [fiveRows])⟩

/-- **C8** (confirmed).  For every positive batch size the pipeline
slices the rows into contiguous batches of at most `batch_size`,
processing them (and the rows inside them) strictly in input order — the
batched fold equals the plain fold over the rows — and the two outcome
counters sum to the number of input rows.  Concretely, 12 rows with
batch size 5 give batches of sizes 5, 5, 2 and counts summing to 12. -/
theorem C8_batching :
    (∀ (bs : Nat) (rows : List Row), 0 < bs →
       (batches bs rows).flatten = rows ∧ ∀ b ∈ batches bs rows, b.length ≤ bs)
    ∧ (∀ (d : Product → PostResult) (t : String) (rows : List Row) (bs : Nat)
         (init : UploadState), 0 < bs →
       (batches bs rows).foldl (fun st batch => batch.foldl (processRow d t) st) init =
         rows.foldl (processRow d t) init)
    ∧ (∀ (d : Product → PostResult) (t : String) (rows : List Row) (bs : Nat),
       0 < bs → rows ≠ [] →
       ∃ s calls, upload_products_from_excel d t rows bs = .ok (s, calls) ∧
         s.successful_uploads + s.failed_uploads = rows.length)
    ∧ (batches 5 twelveRows).map List.length = [5, 5, 2]
    ∧ upload_products_from_excel alwaysCreated "2024-01-01" twelveRows 5 =
        .ok (⟨12, 12, 0, []⟩, twelveRows.map (transform_row_to_product "2024-01-01")) := by
  refine ⟨?_, ?_, ?_, ?_, ?_⟩
  · intro bs rows hbs
    refine ⟨batchesGo_flatten _ rows, ?_⟩
    intro b hb
    have := batchesGo_sizes (bs - 1) rows b hb
    omega
  · intro d t rows bs init hbs
    rw [foldl_foldl_flatten, batches, batchesGo_flatten]
  · intro d t rows bs hbs hne
    refine ⟨_, _, upload_ok_eq d t rows bs hbs hne, ?_⟩
    rw [foldl_succ, foldl_fail]
    have := countP_ok_add_not (okRow d t) rows
    simp only []
    omega
  · simp [batches, batchesGo, twelveRows]
  · rw [upload_ok_eq _ _ _ _ (by omega) (by simp [twelveRows])]
    rfl

/-- **C8 witness**: the universal parts of `C8_batching` applied to the
concrete 12-row scenario with batch size 5. -/
theorem C8_witness :
    (0 : Nat) < 5 ∧ twelveRows ≠ [] ∧
    ((batches 5 twelveRows).flatten = twelveRows ∧
      ∀ b ∈ batches 5 twelveRows, b.length ≤ 5) ∧
    (∃ s calls,
      upload_products_from_excel alwaysCreated "2024-01-01" twelveRows 5 = .ok (s, calls) ∧
        s.successful_uploads + s.failed_uploads = twelveRows.length) :=
  ⟨by omega, by simp [twelveRows],
    C8_batching.1 5 twelveRows (by omega),
    C8_batching.2.2.1 alwaysCreated "2024-01-01" twelveRows 5 (by omega)
      (by simp [twelveRows])⟩

/-- **C10** (confirmed).  Each processed row increments exactly one of
`successful_uploads` / `failed_uploads`; hence after any prefix of the
rows (the fold from any intermediate state) the two counters sum to the
number of rows processed so far, and at run end they sum to
`total_products`.  A row skipped for a missing title is counted in
`failed_uploads`. -/
theorem C10_accumulator_invariant :
    (∀ (d : Product → PostResult) (t : String) (st : UploadState) (row : Row),
       ((processRow d t st row).stats.successful_uploads = st.stats.successful_uploads + 1 ∧
        (processRow d t st row).stats.failed_uploads = st.stats.failed_uploads) ∨
       ((processRow d t st row).stats.successful_uploads = st.stats.successful_uploads ∧
        (processRow d t st row).stats.failed_uploads = st.stats.failed_uploads + 1))
    ∧ (∀ (d : Product → PostResult) (t : String) (st : UploadState) (rows : List Row),
       (rows.foldl (processRow d t) st).stats.successful_uploads +
         (rows.foldl (processRow d t) st).stats.failed_uploads =
       st.stats.successful_uploads + st.stats.failed_uploads + rows.length)
    ∧ (∀ (d : Product → PostResult) (t : String) (st : UploadState) (row : Row),
       titledRow t row = false →
       (processRow d t st row).stats.failed_uploads = st.stats.failed_uploads + 1)
    ∧ (∀ (d : Product → PostResult) (t : String) (rows : List Row) (bs : Nat),
       0 < bs → rows ≠ [] →
       ∃ s calls, upload_products_from_excel d t rows bs = .ok (s, calls) ∧
         s.successful_uploads + s.failed_uploads = s.total_products ∧
         s.total_products = rows.length) := by
  refine ⟨?_, ?_, ?_, ?_⟩
  · intro d t st row
    rw [processRow_succ, processRow_fail]
    by_cases h : okRow d t row
    · left; simp [h]
    · right; simp [h]
  · intro d t st rows
    rw [foldl_succ, foldl_fail]
    have := countP_ok_add_not (okRow d t) rows
    omega
  · intro d t st row h
    rw [processRow_fail]
    have hok : okRow d t row = false := by
      unfold okRow
      rw [h]
      rfl
    simp [hok]
  · intro d t rows bs hbs hne
    refine ⟨_, _, upload_ok_eq d t rows bs hbs hne, ?_, ?_⟩
    · rw [foldl_succ, foldl_fail, foldl_total]
      have := countP_ok_add_not (okRow d t) rows
      simp only []
      omega
    · rw [foldl_total]

/-- **C10 witness**: the invariant applied to the concrete five-row
scenario. -/
theorem C10_witness :
    titledRow "2024-01-01" ([] : Row) = false ∧
    (processRow alwaysCreated "2024-01-01" ⟨⟨5, 0, 0, []⟩, []⟩ ([] : Row)).stats.failed_uploads
      = 0 + 1 ∧
    (0 : Nat) < 5 ∧ fiveRows ≠ [] ∧
    (∃ s calls,
      upload_products_from_excel alwaysCreated "2024-01-01" fiveRows 5 = .ok (s, calls) ∧
        s.successful_uploads + s.failed_uploads = s.total_products ∧
        s.total_products = fiveRows.length) :=
  ⟨rfl,
    C10_accumulator_invariant.2.2.1 alwaysCreated "2024-01-01" ⟨⟨5, 0, 0, []⟩, []⟩ ([] : Row) rfl,
    by omega, by simp [fiveRows],
    C10_accumulator_invariant.2.2.2 alwaysCreated "2024-01-01" fiveRows 5 (by omega)
      (by simp [fiveRows])⟩

/-- **C1 counterexample**: a run over one row with no title, under a
capability that always succeeds.  The row is logged as skipped by the
source but counted in `failed_uploads` — the same counter delivery
failures use; the `stats` dict of the source has no skipped outcome at
all — and the delivery capability is never invoked (the call trace is
empty). -/
theorem C1_counterexample :
    upload_products_from_excel alwaysCreated "2024-01-01"
      [[("Description", CellVal.str "no title")]] 10 =
      .ok (⟨1, 0, 1, []⟩, []) := by
  rw [upload_ok_eq _ _ _ _ (by omega) (by simp)]
  rfl

/-- **C1 amended**: a row whose normalized title is empty is gated
before delivery: the delivery capability is never invoked for it (the
call trace is unchanged, and over a whole run the trace contains exactly
the gate-passing rows), but the row is counted in `failed_uploads`, the
same counter as delivery failures — not in a distinct skipped
counter. -/
theorem C1_gate_skips_delivery :
    (∀ (d : Product → PostResult) (t : String) (st : UploadState) (row : Row),
       titledRow t row = false →
       processRow d t st row =
         { st with stats := { st.stats with failed_uploads := st.stats.failed_uploads + 1 } })
    ∧ (∀ (d : Product → PostResult) (t : String) (rows : List Row) (bs : Nat),
       0 < bs → rows ≠ [] →
       ∃ s calls, upload_products_from_excel d t rows bs = .ok (s, calls) ∧
         calls = (rows.filter (titledRow t)).map (transform_row_to_product t)) := by
  constructor
  · intro d t st row h
    unfold titledRow at h
    simp [processRow, h]
  · intro d t rows bs hbs hne
    refine ⟨_, _, upload_ok_eq d t rows bs hbs hne, ?_⟩
    rw [foldl_calls]
    rfl

/-- **C1 witness**: the gate applied to the concrete no-title row; its
product is not delivered and `failed_uploads` goes from 0 to 1. -/
theorem C1_witness :
    titledRow "2024-01-01" [("Description", CellVal.str "no title")] = false ∧
    processRow alwaysCreated "2024-01-01" ⟨⟨1, 0, 0, []⟩, []⟩
        [("Description", CellVal.str "no title")] = ⟨⟨1, 0, 1, []⟩, []⟩ :=
  ⟨rfl,
    C1_gate_skips_delivery.1 alwaysCreated "2024-01-01" ⟨⟨1, 0, 0, []⟩, []⟩
      [("Description", CellVal.str "no title")] rfl⟩

/-- **C7 counterexample**: on an empty input the success-rate line
`successful_uploads / total_products * 100` divides by zero and the run
raises instead of returning its statistics — the computation is not
guarded. -/
theorem C7_counterexample :
    upload_products_from_excel alwaysCreated "2024-01-01" [] 5 =
      .error "ZeroDivisionError: division by zero" := by
  simp [upload_products_from_excel, batches, batchesGo]

/-- **C7 amended**: at run end the pipeline computes the success rate
`successful_uploads / total_products * 100` (`successRate`); the
division is not guarded, so the run raises `ZeroDivisionError` exactly
when the total row count is 0, and otherwise returns its statistics with
a non-zero denominator. -/
theorem C7_rate_unguarded :
    ∀ (d : Product → PostResult) (t : String) (rows : List Row) (bs : Nat), 0 < bs →
      ((upload_products_from_excel d t rows bs =
          .error "ZeroDivisionError: division by zero") ↔ rows = [])
      ∧ (rows ≠ [] → ∃ s calls, upload_products_from_excel d t rows bs = .ok (s, calls) ∧
          s.total_products = rows.length ∧ s.total_products ≠ 0 ∧
          successRate s = (s.successful_uploads : Rat) / (rows.length : Rat) * 100) := by
  intro d t rows bs hbs
  constructor
  · constructor
    · intro h
      by_contra hne
      rw [upload_ok_eq d t rows bs hbs hne] at h
      exact Except.noConfusion h
    · intro h
      subst h
      have hbz : ¬ bs = 0 := by omega
      simp [upload_products_from_excel, batches, batchesGo, hbz]
  · intro hne
    refine ⟨_, _, upload_ok_eq d t rows bs hbs hne, ?_, ?_, ?_⟩
    · rw [foldl_total]
    · rw [foldl_total]
      simpa using hne
    · unfold successRate
      rw [foldl_total]

/-- **C7 witness**: the amended statement at a concrete run: one titled
row gives a returned report with total 1, while the empty input raises. -/
theorem C7_witness :
    (0 : Nat) < 5 ∧
    ((upload_products_from_excel alwaysCreated "2024-01-01" [] 5 =
        .error "ZeroDivisionError: division by zero") ↔ ([] : List Row) = []) ∧
    (∃ s calls,
      upload_products_from_excel alwaysCreated "2024-01-01" [titleRow "P1"] 5 =
        .ok (s, calls) ∧
      s.total_products = [titleRow "P1"].length ∧ s.total_products ≠ 0 ∧
      successRate s = (s.successful_uploads : Rat) / ([titleRow "P1"].length : Rat) * 100) :=
  ⟨by omega,
    (C7_rate_unguarded alwaysCreated "2024-01-01" [] 5 (by omega)).1,
    (C7_rate_unguarded alwaysCreated "2024-01-01" [titleRow "P1"] 5 (by omega)).2
      (by simp)⟩

/-- **C9** (confirmed).  The list coercer: for a non-blank string a JSON
parse is attempted first (a successful parse fully determines the result
— a parsed list passes through, any other parsed value is wrapped), and
only when the JSON parse fails is the string split on commas with each
segment stripped and empty segments dropped; a missing or blank value
gives `[]`, an existing list passes through, and every other value gives
`[]`. -/
theorem C9_list_coercion :
    (∀ (s : String) (v : PyVal), json_loads s = some v →
       parse_list_field (.str s) = (match v with | .list xs => xs | w => [w]))
    ∧ (∀ (s : String), s ≠ "" → json_loads s = Option.none →
       parse_list_field (.str s) =
         (((pySplitComma s).map pyStrip).filter (fun t => t ≠ "")).map .str)
    ∧ parse_list_field .none = [] ∧ parse_list_field (.str "") = []
    ∧ (∀ (xs : List PyVal), parse_list_field (.list xs) = xs)
    ∧ (∀ (n : Int), parse_list_field (.int n) = [])
    ∧ (∀ (q : Rat), parse_list_field (.float q) = [])
    ∧ (∀ (b : Bool), parse_list_field (.bool b) = [])
    ∧ (∀ (kvs : List (String × PyVal)), parse_list_field (.dict kvs) = []) := by
  refine ⟨?_, ?_, rfl, rfl, fun xs => rfl, fun n => rfl, fun q => rfl,
    fun b => rfl, fun kvs => rfl⟩
  · intro s v h
    have hs : s ≠ "" := by
      intro he
      subst he
      rw [show json_loads "" = Option.none from rfl] at h
      exact Option.noConfusion h
    simp only [parse_list_field, isna, isBlank]
    rw [if_neg (by simp [hs])]
    rw [h]
    cases v <;> rfl
  · intro s hs h
    simp only [parse_list_field, isna, isBlank]
    rw [if_neg (by simp [hs])]
    rw [h]

/-- **C9 witness**: the two conditional branches at concrete inputs:
`"[1, 2]"` parses as JSON (no comma split), `"a, b"` fails JSON and is
comma-split with stripping. -/
theorem C9_witness :
    json_loads "[1, 2]" = some (.list [.int 1, .int 2]) ∧
    parse_list_field (.str "[1, 2]") = [.int 1, .int 2] ∧
    json_loads "a, b" = Option.none ∧
    parse_list_field (.str "a, b") = [.str "a", .str "b"] :=
  ⟨rfl,
    by
      have := C9_list_coercion.1 "[1, 2]" (.list [.int 1, .int 2]) rfl
      simpa using this,
    rfl,
    by
      have := C9_list_coercion.2.1 "a, b" (by decide) rfl
      rw [this]
      rfl⟩

/-- The dimensions dict of the C2 counterexample:
`{"width": "bad", "height": 5, "depth": 3}`. -/
def dimsBadInput : PyVal :=
  .dict [("width", .str "bad"), ("height", .int 5), ("depth", .int 3)]

/-- **C2 counterexample**: on `{"width": "bad", "height": 5, "depth": 3}`
(both as a JSON string and as a dict) `parse_dimensions` returns the
all-zero default — the valid sub-keys do *not* keep their parsed values,
so the claimed output `{"width": 0, "height": 5.0, "depth": 3.0}` is
wrong (`0 == 5.0` is false even under Python numeric equality). -/
theorem C2_counterexample :
    parse_dimensions (.str "\x7b\"width\": \"bad\", \"height\": 5, \"depth\": 3\x7d") =
      .dict [("width", .int 0), ("height", .int 0), ("depth", .int 0)] ∧
    parse_dimensions dimsBadInput =
      .dict [("width", .int 0), ("height", .int 0), ("depth", .int 0)] ∧
    parse_dimensions dimsBadInput ≠
      .dict [("width", .int 0), ("height", .float 5), ("depth", .float 3)] ∧
    pyEqv (.int 0) (.float 5) = false := by
  refine ⟨rfl, rfl, ?_, by decide⟩
  intro h
  rw [show parse_dimensions dimsBadInput =
    .dict [("width", .int 0), ("height", .int 0), ("depth", .int 0)] from rfl] at h
  simp at h

/-- **C2 amended**.  Each of the three keys is looked up independently
and a *missing* key defaults to 0, and when all three `float(...)`
conversions succeed the parsed values are kept; but conversion failures
are not isolated: if any one sub-key fails its `float(...)` conversion,
the single `try/except` around the whole body discards the other keys
and returns the all-zero default.  A JSON string parsing to an object
behaves exactly like the object itself. -/
theorem C2_dimensions_failure_not_isolated :
    ∀ (kvs : List (String × PyVal)),
      (∀ (w h d : Rat), pyFloat (dictGet kvs "width" (.int 0)) = some w →
          pyFloat (dictGet kvs "height" (.int 0)) = some h →
          pyFloat (dictGet kvs "depth" (.int 0)) = some d →
          parse_dimensions (.dict kvs) =
            .dict [("width", .float w), ("height", .float h), ("depth", .float d)])
      ∧ ((pyFloat (dictGet kvs "width" (.int 0)) = Option.none ∨
          pyFloat (dictGet kvs "height" (.int 0)) = Option.none ∨
          pyFloat (dictGet kvs "depth" (.int 0)) = Option.none) →
          parse_dimensions (.dict kvs) = defaultDims)
      ∧ (∀ (s : String), json_loads s = some (.dict kvs) →
          parse_dimensions (.str s) = parse_dimensions (.dict kvs)) := by
  intro kvs
  refine ⟨?_, ?_, ?_⟩
  · intro w h d hw hh hd
    simp [parse_dimensions, jsonOrSelf, dimsUpdate, isna, isBlank, hw, hh, hd]
  · intro hfail
    rcases hfail with hw | hh | hd
    · simp [parse_dimensions, jsonOrSelf, dimsUpdate, isna, isBlank, hw]
    · cases hw : pyFloat (dictGet kvs "width" (.int 0)) <;>
        simp [parse_dimensions, jsonOrSelf, dimsUpdate, isna, isBlank, hw, hh]
    · cases hw : pyFloat (dictGet kvs "width" (.int 0)) <;>
        cases hh : pyFloat (dictGet kvs "height" (.int 0)) <;>
        simp [parse_dimensions, jsonOrSelf, dimsUpdate, isna, isBlank, hw, hh, hd]
  · intro s hjson
    have hs : s ≠ "" := by
      intro he
      subst he
      rw [show json_loads "" = Option.none from rfl] at hjson
      exact Option.noConfusion hjson
    simp only [parse_dimensions, isna, isBlank]
    rw [if_neg (by simp [hs]), if_neg (by simp)]
    rw [show jsonOrSelf (PyVal.str s) = json_loads s from rfl, hjson]
    rfl

/-- **C2 witness**: the amended behaviour at concrete inputs: an
all-good dict keeps all three parsed floats, the `"bad"` width zeroes
everything, and the JSON text behaves like the parsed dict. -/
theorem C2_witness :
    pyFloat (dictGet [(("width" : String), PyVal.int 1), ("height", PyVal.int 5),
        ("depth", PyVal.int 3)] "width" (.int 0)) = some 1 ∧
    parse_dimensions (.dict [(("width" : String), PyVal.int 1), ("height", PyVal.int 5),
        ("depth", PyVal.int 3)]) =
      .dict [("width", .float 1), ("height", .float 5), ("depth", .float 3)] ∧
    pyFloat (.str "bad") = Option.none ∧
    parse_dimensions dimsBadInput = defaultDims ∧
    parse_dimensions (.str "\x7b\"width\": \"bad\", \"height\": 5, \"depth\": 3\x7d") =
      parse_dimensions dimsBadInput :=
  ⟨rfl,
    (C2_dimensions_failure_not_isolated _).1 1 5 3 rfl rfl rfl,
    rfl,
    (C2_dimensions_failure_not_isolated _).2.1 (Or.inl rfl),
    (C2_dimensions_failure_not_isolated _).2.2
      "\x7b\"width\": \"bad\", \"height\": 5, \"depth\": 3\x7d" rfl⟩

/-- A character list that starts and ends with non-whitespace characters
is unchanged by `strip`. -/
theorem stripList_eq_self (c1 c2 : Char) (w1 : isWs c1 = false) (w2 : isWs c2 = false) :
    ∀ (l : List Char), l.head? = some c1 → l.getLast? = some c2 → stripList l = l := by
  intro l h1 h2
  match l with
  | [] => simp at h1
  | a :: t =>
    have ha : a = c1 := by simpa using h1
    obtain rfl := ha.symm
    unfold stripList
    rw [List.dropWhile_cons, if_neg (by simp [w1])]
    cases hr : (c1 :: t).reverse with
    | nil => simp at hr
    | cons b t2 =>
      have hb : b = c2 := by
        have hh : (c1 :: t).reverse.head? = some c2 := by
          rw [List.head?_reverse]; exact h2
        rw [hr] at hh
        simpa using hh
      obtain rfl := hb.symm
      rw [List.dropWhile_cons, if_neg (by simp [w2]), ← hr, List.reverse_reverse]

theorem fallbackImageUrl_head (cat sku : PyVal) :
    (fallbackImageUrl cat sku).toList.head? = some 'h' := rfl

theorem fallbackImageUrl_last (cat sku : PyVal) :
    (fallbackImageUrl cat sku).toList.getLast? = some 'g' := by
  have hsplit : (fallbackImageUrl cat sku).toList =
      (imageBase ++ (⟨replaceSpaceChars (stripList (pyStr cat).toList)⟩ : String)
        ++ "/" ++ pyStrip (pyStr sku)).toList ++ (".png" : String).toList := rfl
  rw [hsplit, List.getLast?_append_of_ne_nil _ (by simp)]
  rfl

theorem fallbackImageUrl_stripped (cat sku : PyVal) :
    pyStrip (fallbackImageUrl cat sku) = fallbackImageUrl cat sku := by
  unfold pyStrip
  rw [stripList_eq_self 'h' 'g' rfl rfl _ (fallbackImageUrl_head cat sku)
    (fallbackImageUrl_last cat sku)]
  rfl

theorem fallbackImageUrl_ne_empty (cat sku : PyVal) :
    fallbackImageUrl cat sku ≠ "" := by
  intro h
  have h2 : some 'h' = (Option.none : Option Char) := by
    rw [← fallbackImageUrl_head cat sku, h]
    rfl
  exact Option.noConfusion h2

/-- **C5** (confirmed).  When the parsed image list is empty and both a
truthy (non-empty) category and SKU are available, exactly one fallback
entry is synthesized whose URL is the fixed template
`base/{stripped category, space → %20}/{stripped sku}.png`
(`fallbackImageUrl`); and in general every element of the effective list
is stripped and mapped to `{"imageUrl": value}`, with elements stripping
to empty dropped. -/
theorem C5_images_fallback :
    (∀ (v cat sku : PyVal),
       parse_list_field v = [] → pyTruthy cat = true → pyTruthy sku = true →
       parse_images v cat sku =
         [.dict [("imageUrl", .str (fallbackImageUrl cat sku))]])
    ∧ (∀ (xs : List PyVal) (cat sku : PyVal), xs ≠ [] →
       parse_images (.list xs) cat sku =
         ((xs.map fun i => pyStrip (pyStr i)).filter fun s => s ≠ "").map
           (fun s => .dict [("imageUrl", .str s)])) := by
  constructor
  · intro v cat sku hempty hcat hsku
    simp only [parse_images, hempty, List.isEmpty_nil, hcat, hsku, Bool.and_self,
      Bool.and_true, if_true, List.nil_append]
    have hstr : pyStr (PyVal.str (fallbackImageUrl cat sku)) = fallbackImageUrl cat sku := rfl
    simp only [List.map_cons, List.map_nil, hstr, fallbackImageUrl_stripped,
      List.filter_cons, List.filter_nil]
    rw [if_pos]
    · rfl
    · simpa using fallbackImageUrl_ne_empty cat sku
  · intro xs cat sku hne
    obtain ⟨y, ys, rfl⟩ := List.exists_cons_of_ne_nil hne
    rfl

/-- **C5 witness**: blank images with category `"Lighting"` and SKU
`"A1"` give exactly one entry with the concrete template URL; a
non-empty list input is mapped and filtered elementwise. -/
theorem C5_witness :
    parse_list_field (.str "") = [] ∧
    pyTruthy (.str "Lighting") = true ∧
    pyTruthy (.str "A1") = true ∧
    parse_images (.str "") (.str "Lighting") (.str "A1") =
      [.dict [("imageUrl", .str (fallbackImageUrl (.str "Lighting") (.str "A1")))]] ∧
    fallbackImageUrl (.str "Lighting") (.str "A1") =
      "https://raw.githubusercontent.com/rakeshsharma869/Extro_related_stuffs/refs/heads/master/All%20Tabs/Lighting/A1.png" ∧
    parse_images (.list [.str " u1 ", .str "  "]) (.str "Lighting") (.str "A1") =
      [.dict [("imageUrl", .str "u1")]] :=
  ⟨rfl, rfl, rfl,
    C5_images_fallback.1 (.str "") (.str "Lighting") (.str "A1") rfl rfl rfl,
    rfl,
    by
      have := C5_images_fallback.2 [.str " u1 ", .str "  "] (.str "Lighting") (.str "A1")
        (by simp)
      rw [this]
      rfl⟩

/-- **C6 counterexample**: the images coercer, given a *blank* cell but
a truthy category and SKU, returns the synthesized fallback entry
instead of its declared default `[]` (its isna/blank guard is commented
out in the source). -/
theorem C6_counterexample :
    parse_images (.str "") (.str "Lighting") (.str "A1") =
      [.dict [("imageUrl", .str "https://raw.githubusercontent.com/rakeshsharma869/Extro_related_stuffs/refs/heads/master/All%20Tabs/Lighting/A1.png")]] ∧
    parse_images (.str "") (.str "Lighting") (.str "A1") ≠ ([] : List PyVal) := by
  constructor
  · rfl
  · intro h
    rw [show parse_images (.str "") (.str "Lighting") (.str "A1") =
      [.dict [("imageUrl", .str "https://raw.githubusercontent.com/rakeshsharma869/Extro_related_stuffs/refs/heads/master/All%20Tabs/Lighting/A1.png")]] from rfl] at h
    simp at h

/-- **C6 amended**.  Every composite coercer except images yields
exactly its declared default on an absent or blank cell (`{}` for the
JSON-object coercer, `[]` for the list-shaped coercers, the zeroed
dimensions object, the empty-string meta object).  The images coercer
does so only when the category or the SKU is falsy; otherwise it
synthesizes the fallback entry (see C5).  The `safe_get` scalar fields
yield their declared default on an absent (or NA) cell, while a *blank
string* cell is passed to the converter instead: string-typed fields
then yield `""` (not the default) and numeric fields fall back to the
default only because the conversion fails. -/
theorem C6_coercer_defaults :
    (parse_json_field .none = .dict [] ∧ parse_json_field (.str "") = .dict []) ∧
    (parse_list_field .none = [] ∧ parse_list_field (.str "") = []) ∧
    (parse_dimensions .none = defaultDims ∧ parse_dimensions (.str "") = defaultDims) ∧
    (parse_tags .none = [] ∧ parse_tags (.str "") = []) ∧
    (∀ today : String, parse_reviews today .none = [] ∧ parse_reviews today (.str "") = []) ∧
    (parse_color_options .none = [] ∧ parse_color_options (.str "") = []) ∧
    (parse_attachments .none = [] ∧ parse_attachments (.str "") = []) ∧
    (parse_meta .none = defaultMeta ∧ parse_meta (.str "") = defaultMeta) ∧
    (∀ (cat sku : PyVal), pyTruthy cat = false ∨ pyTruthy sku = false →
       parse_images .none cat sku = [] ∧ parse_images (.str "") cat sku = []) ∧
    (∀ (g : Getter) (f : String) (d : PyVal), g f = some (.str "") →
       safe_get g f d strConv = .str "" ∧
       safe_get g f d floatConv = d ∧
       safe_get g f d intConv = d) ∧
    (∀ (g : Getter) (f : String), g f = Option.none →
       (∀ s : String, safe_get g f (.str s) strConv = .str s) ∧
       (∀ n : Int, safe_get g f (.int n) floatConv = .float n) ∧
       (∀ n : Int, safe_get g f (.int n) intConv = .int n)) := by
  refine ⟨⟨rfl, rfl⟩, ⟨rfl, rfl⟩, ⟨rfl, rfl⟩, ⟨rfl, rfl⟩, fun _ => ⟨rfl, rfl⟩,
    ⟨rfl, rfl⟩, ⟨rfl, rfl⟩, ⟨rfl, rfl⟩, ?_, ?_, ?_⟩
  · intro cat sku hfalsy
    have e1 : parse_list_field PyVal.none = [] := rfl
    have e2 : parse_list_field (PyVal.str "") = [] := rfl
    rcases hfalsy with h | h <;>
      exact ⟨by simp [parse_images, e1, h], by simp [parse_images, e2, h]⟩
  · intro g f d hg
    refine ⟨?_, ?_, ?_⟩ <;>
      simp [safe_get, hg, isna, strConv, floatConv, intConv, pyFloat, pyStr,
        pyInt, parseFloatChars, parseIntChars, stripList, natOfDigits]
  · intro g f hg
    refine ⟨?_, ?_, ?_⟩ <;> intro x <;>
      simp [safe_get, hg, isna, strConv, floatConv, intConv, pyStr, pyFloat, pyInt]

/-- **C6 witness**: the conditional parts at concrete inputs: a falsy
category keeps the images default `[]`; a blank Availability Status
cell yields `""` instead of the `"In Stock"` default, while an absent
Version column yields its default `"1.0"`. -/
theorem C6_witness :
    pyTruthy (.str "") = false ∧
    (parse_images .none (.str "") (.str "A1") = [] ∧
      parse_images (.str "") (.str "") (.str "A1") = []) ∧
    rowGetter [("Availability Status", CellVal.str "")] "Availability Status" =
      some (.str "") ∧
    safe_get (rowGetter [("Availability Status", CellVal.str "")]) "Availability Status"
      (.str "In Stock") strConv = .str "" ∧
    rowGetter [("Availability Status", CellVal.str "")] "Version" = Option.none ∧
    safe_get (rowGetter [("Availability Status", CellVal.str "")]) "Version"
      (.str "1.0") strConv = .str "1.0" :=
  ⟨rfl,
    C6_coercer_defaults.2.2.2.2.2.2.2.2.1 (.str "") (.str "A1") (Or.inl rfl),
    rfl,
    (C6_coercer_defaults.2.2.2.2.2.2.2.2.2.1
      (rowGetter [("Availability Status", CellVal.str "")]) "Availability Status"
      (.str "In Stock") rfl).1,
    rfl,
    (C6_coercer_defaults.2.2.2.2.2.2.2.2.2.2
      (rowGetter [("Availability Status", CellVal.str "")]) "Version" rfl).1 "1.0"⟩

/-- Shape test: a Python string. -/
def isStrV : PyVal → Bool
  | .str _ => true
  | _ => false

/-- Shape test: a Python number (`int` or `float`). -/
def isNumV : PyVal → Bool
  | .int _ => true
  | .float _ => true
  | _ => false

/-- Shape test: a Python `int`. -/
def isIntV : PyVal → Bool
  | .int _ => true
  | _ => false

/-- Shape test: the dimensions object `{"width", "height", "depth"}`
with numeric values. -/
def dimsShape : PyVal → Bool
  | .dict [("width", w), ("height", h), ("depth", d)] => isNumV w && isNumV h && isNumV d
  | _ => false

/-- Shape test: a `{"tag": str}` object. -/
def tagShape : PyVal → Bool
  | .dict [("tag", .str _)] => true
  | _ => false

/-- Shape test: a review object with its five typed fields. -/
def reviewShape : PyVal → Bool
  | .dict [("rating", .int _), ("comment", .str _), ("date", .str _),
      ("reviewerName", .str _), ("reviewerEmail", .str _)] => true
  | _ => false

/-- Shape test: an `{"imageUrl": str}` object. -/
def imageShape : PyVal → Bool
  | .dict [("imageUrl", .str _)] => true
  | _ => false

/-- Shape test: a `{"colorOption": str}` object. -/
def colorShape : PyVal → Bool
  | .dict [("colorOption", .str _)] => true
  | _ => false

/-- Shape test: an attachment object with its two string fields. -/
def attachShape : PyVal → Bool
  | .dict [("attachmentType", .str _), ("attachmentLink", .str _)] => true
  | _ => false

/-- Shape test: the meta object `{"barcode": str, "qrCode": str}`. -/
def metaShape : PyVal → Bool
  | .dict [("barcode", .str _), ("qrCode", .str _)] => true
  | _ => false

/-- Shape test: a list all of whose elements satisfy `p`. -/
def listShape (p : PyVal → Bool) : PyVal → Bool
  | .list xs => xs.all p
  | _ => false

/-- Schema conformance of a normalized record: every recognized field is
present (under `productGet`) with a value of its target type. -/
def conformsB (p : Product) : Bool :=
  isStrV (productGet p "title") && isStrV (productGet p "description") &&
  isStrV (productGet p "category") && isStrV (productGet p "subcategory") &&
  isNumV (productGet p "price") && isNumV (productGet p "discountPercentage") &&
  isNumV (productGet p "rating") && isIntV (productGet p "stock") &&
  isStrV (productGet p "brand") && isStrV (productGet p "sku") &&
  isNumV (productGet p "weight") && isStrV (productGet p "warrantyInformation") &&
  isStrV (productGet p "shippingInformation") && isStrV (productGet p "availabilityStatus") &&
  isStrV (productGet p "returnPolicy") && isIntV (productGet p "minimumOrderQuantity") &&
  isStrV (productGet p "thumbnail") && isStrV (productGet p "version") &&
  dimsShape (productGet p "dimensions") && listShape tagShape (productGet p "tags") &&
  listShape reviewShape (productGet p "reviews") && listShape imageShape (productGet p "images") &&
  listShape colorShape (productGet p "colorOptions") &&
  listShape attachShape (productGet p "attachments") && metaShape (productGet p "meta")

theorem safe_get_str_isStr (g : Getter) (f : String) (s : String) :
    isStrV (safe_get g f (.str s) strConv) = true := by
  unfold safe_get strConv
  by_cases h : isna ((g f).getD (.str s)) <;> simp [h, isStrV]

theorem safe_get_float_isNum (g : Getter) (f : String) (n : Int) :
    isNumV (safe_get g f (.int n) floatConv) = true := by
  unfold safe_get floatConv
  by_cases h : isna ((g f).getD (.int n))
  · simp [h, isNumV]
  · cases hq : pyFloat ((g f).getD (.int n)) <;> simp [h, hq, isNumV]

theorem safe_get_int_isInt (g : Getter) (f : String) (n : Int) :
    isIntV (safe_get g f (.int n) intConv) = true := by
  unfold safe_get intConv
  by_cases h : isna ((g f).getD (.int n))
  · simp [h, isIntV]
  · cases hq : pyInt ((g f).getD (.int n)) <;> simp [h, hq, isIntV]

theorem dimsUpdate_shape :
    ∀ (dims r : PyVal), dimsUpdate dims = some r → dimsShape r = true := by
  intro dims r h
  cases dims with
  | dict kvs =>
    rw [dimsUpdate] at h
    cases hw : pyFloat (dictGet kvs "width" (.int 0)) with
    | none => rw [hw] at h; exact Option.noConfusion h
    | some w =>
      rw [hw] at h
      cases hh : pyFloat (dictGet kvs "height" (.int 0)) with
      | none => rw [hh] at h; exact Option.noConfusion h
      | some h2 =>
        rw [hh] at h
        cases hd : pyFloat (dictGet kvs "depth" (.int 0)) with
        | none => rw [hd] at h; exact Option.noConfusion h
        | some d =>
          rw [hd] at h
          simp only [Option.some_bind, Option.some.injEq] at h
          subst h
          rfl
  | none => cases h; rfl
  | str s => cases h; rfl
  | int n => cases h; rfl
  | float q => cases h; rfl
  | bool b => cases h; rfl
  | list xs => cases h; rfl

theorem parse_dimensions_shape (v : PyVal) :
    dimsShape (parse_dimensions v) = true := by
  unfold parse_dimensions
  by_cases h : (isna v || isBlank v) = true
  · rw [if_pos h]; rfl
  · rw [if_neg h]
    cases hj : jsonOrSelf v with
    | none => rfl
    | some dims =>
      rw [Option.some_bind]
      cases hu : dimsUpdate dims with
      | none => rfl
      | some r => exact dimsUpdate_shape dims r hu

theorem parse_tags_shape (v : PyVal) :
    (parse_tags v).all tagShape = true := by
  unfold parse_tags
  by_cases h : (isna v || isBlank v) = true
  · rw [if_pos h]; rfl
  · rw [if_neg h]
    simp only [List.all_eq_true]
    intro x hx
    obtain ⟨t, ht, rfl⟩ := List.mem_map.mp hx
    rfl

theorem parse_color_options_shape (v : PyVal) :
    (parse_color_options v).all colorShape = true := by
  unfold parse_color_options
  by_cases h : (isna v || isBlank v) = true
  · rw [if_pos h]; rfl
  · rw [if_neg h]
    simp only [List.all_eq_true]
    intro x hx
    obtain ⟨t, ht, rfl⟩ := List.mem_map.mp hx
    rfl

theorem parse_images_shape (v cat sku : PyVal) :
    (parse_images v cat sku).all imageShape = true := by
  unfold parse_images
  simp only [List.all_eq_true]
  intro x hx
  obtain ⟨t, ht, rfl⟩ := List.mem_map.mp hx
  rfl

theorem formatReviews_shape (t : String) :
    ∀ (l : List PyVal) (out : List PyVal),
      formatReviews t l = some out → out.all reviewShape = true := by
  intro l
  induction l with
  | nil =>
    intro out h
    rw [formatReviews] at h
    cases h
    rfl
  | cons r rs ih =>
    intro out h
    cases r with
    | dict kvs =>
      rw [formatReviews] at h
      cases hr : pyInt (dictGet kvs "rating" (.int 0)) with
      | none => rw [hr] at h; exact Option.noConfusion h
      | some rating =>
        rw [hr, Option.some_bind] at h
        cases hrest : formatReviews t rs with
        | none => rw [hrest] at h; exact Option.noConfusion h
        | some rest =>
          rw [hrest, Option.some_bind, Option.some.injEq] at h
          subst h
          simp only [List.all_cons, Bool.and_eq_true]
          exact ⟨rfl, ih rest hrest⟩
    | none => exact ih out h
    | str s => exact ih out h
    | int n => exact ih out h
    | float q => exact ih out h
    | bool b => exact ih out h
    | list xs => exact ih out h

theorem parse_reviews_shape (t : String) (v : PyVal) :
    (parse_reviews t v).all reviewShape = true := by
  unfold parse_reviews
  by_cases h : (isna v || isBlank v) = true
  · rw [if_pos h]; rfl
  · rw [if_neg h]
    cases hj : parse_json_field v with
    | list rs =>
      cases hf : formatReviews t rs with
      | none =>
        show (match formatReviews t rs with
          | some out => out
          | Option.none => []).all reviewShape = true
        rw [hf]
        rfl
      | some out =>
        show (match formatReviews t rs with
          | some out => out
          | Option.none => []).all reviewShape = true
        rw [hf]
        exact formatReviews_shape t rs out hf
    | none => rfl
    | str s => rfl
    | int n => rfl
    | float q => rfl
    | bool b => rfl
    | dict kvs => rfl

theorem formatAttachments_shape :
    ∀ (l : List PyVal), (formatAttachments l).all attachShape = true := by
  intro l
  induction l with
  | nil => rfl
  | cons a rest ih =>
    cases a with
    | dict kvs =>
      rw [formatAttachments, List.all_cons, Bool.and_eq_true]
      exact ⟨rfl, ih⟩
    | none => exact ih
    | str s => exact ih
    | int n => exact ih
    | float q => exact ih
    | bool b => exact ih
    | list xs => exact ih

theorem parse_attachments_shape (v : PyVal) :
    (parse_attachments v).all attachShape = true := by
  unfold parse_attachments
  by_cases h : (isna v || isBlank v) = true
  · rw [if_pos h]; rfl
  · rw [if_neg h]
    cases hj : parse_json_field v with
    | list xs => exact formatAttachments_shape xs
    | none => rfl
    | str s => rfl
    | int n => rfl
    | float q => rfl
    | bool b => rfl
    | dict kvs => rfl

theorem parse_meta_shape (v : PyVal) :
    metaShape (parse_meta v) = true := by
  unfold parse_meta
  by_cases h : (isna v || isBlank v) = true
  · rw [if_pos h]; rfl
  · rw [if_neg h]
    cases hj : parse_json_field v <;> rfl

theorem tg_title (t : String) (g : Getter) :
    productGet (transformG t g) "title" = safe_get g "Title" (.str "") strConv := rfl

theorem tg_description (t : String) (g : Getter) :
    productGet (transformG t g) "description" =
      safe_get g "Description" (.str "") strConv := rfl

theorem tg_category (t : String) (g : Getter) :
    productGet (transformG t g) "category" = safe_get g "Category" (.str "") strConv := rfl

theorem tg_subcategory (t : String) (g : Getter) :
    productGet (transformG t g) "subcategory" =
      safe_get g "SubCategory" (.str "") strConv := rfl

theorem tg_price (t : String) (g : Getter) :
    productGet (transformG t g) "price" = safe_get g "Price" (.int 0) floatConv := rfl

theorem tg_discount (t : String) (g : Getter) :
    productGet (transformG t g) "discountPercentage" =
      safe_get g "Discount Percentage" (.int 0) floatConv := rfl

theorem tg_rating (t : String) (g : Getter) :
    productGet (transformG t g) "rating" = safe_get g "Rating" (.int 0) floatConv := rfl

theorem tg_stock (t : String) (g : Getter) :
    productGet (transformG t g) "stock" = safe_get g "Stock" (.int 0) intConv := rfl

theorem tg_brand (t : String) (g : Getter) :
    productGet (transformG t g) "brand" = safe_get g "Brand" (.str "") strConv := rfl

theorem tg_sku (t : String) (g : Getter) :
    productGet (transformG t g) "sku" = safe_get g "Sku" (.str "") strConv := rfl

theorem tg_weight (t : String) (g : Getter) :
    productGet (transformG t g) "weight" = safe_get g "Weight" (.int 0) floatConv := rfl

theorem tg_warranty (t : String) (g : Getter) :
    productGet (transformG t g) "warrantyInformation" =
      safe_get g "Warranty Information" (.str "") strConv := rfl

theorem tg_shipping (t : String) (g : Getter) :
    productGet (transformG t g) "shippingInformation" =
      safe_get g "Shipping Information" (.str "") strConv := rfl

theorem tg_availability (t : String) (g : Getter) :
    productGet (transformG t g) "availabilityStatus" =
      safe_get g "Availability Status" (.str "In Stock") strConv := rfl

theorem tg_returnPolicy (t : String) (g : Getter) :
    productGet (transformG t g) "returnPolicy" =
      safe_get g "Return Policy" (.str "") strConv := rfl

theorem tg_minOrder (t : String) (g : Getter) :
    productGet (transformG t g) "minimumOrderQuantity" =
      safe_get g "Minimum Order Quantity" (.int 1) intConv := rfl

theorem tg_thumbnail (t : String) (g : Getter) :
    productGet (transformG t g) "thumbnail" = safe_get g "Thumbnail" (.str "") strConv := rfl

theorem tg_version (t : String) (g : Getter) :
    productGet (transformG t g) "version" = safe_get g "Version" (.str "1.0") strConv := rfl

theorem tg_dimensions (t : String) (g : Getter) :
    productGet (transformG t g) "dimensions" =
      parse_dimensions (rawGet g "Dimensions") := rfl

theorem tg_tags (t : String) (g : Getter) :
    productGet (transformG t g) "tags" = .list (parse_tags (rawGet g "Tags")) := rfl

theorem tg_reviews (t : String) (g : Getter) :
    productGet (transformG t g) "reviews" =
      .list (parse_reviews t (rawGet g "Reviews")) := rfl

theorem tg_images (t : String) (g : Getter) :
    productGet (transformG t g) "images" =
      .list (parse_images (rawGet g "Images") (rawGet g "Category") (rawGet g "Sku")) := rfl

theorem tg_colorOptions (t : String) (g : Getter) :
    productGet (transformG t g) "colorOptions" =
      .list (parse_color_options (rawGet g "Color Options")) := rfl

theorem tg_attachments (t : String) (g : Getter) :
    productGet (transformG t g) "attachments" =
      .list (parse_attachments (rawGet g "Attachments")) := rfl

theorem tg_meta (t : String) (g : Getter) :
    productGet (transformG t g) "meta" = parse_meta (rawGet g "Meta") := rfl

theorem conformsB_transformG (t : String) (g : Getter) :
    conformsB (transformG t g) = true := by
  unfold conformsB
  rw [tg_title, tg_description, tg_category, tg_subcategory, tg_price, tg_discount,
    tg_rating, tg_stock, tg_brand, tg_sku, tg_weight, tg_warranty, tg_shipping,
    tg_availability, tg_returnPolicy, tg_minOrder, tg_thumbnail, tg_version,
    tg_dimensions, tg_tags, tg_reviews, tg_images, tg_colorOptions, tg_attachments, tg_meta]
  simp only [Bool.and_eq_true, listShape]
  exact ⟨⟨⟨⟨⟨⟨⟨⟨⟨⟨⟨⟨⟨⟨⟨⟨⟨⟨⟨⟨⟨⟨⟨⟨safe_get_str_isStr g "Title" "",
    safe_get_str_isStr g "Description" ""⟩,
    safe_get_str_isStr g "Category" ""⟩,
    safe_get_str_isStr g "SubCategory" ""⟩,
    safe_get_float_isNum g "Price" 0⟩,
    safe_get_float_isNum g "Discount Percentage" 0⟩,
    safe_get_float_isNum g "Rating" 0⟩,
    safe_get_int_isInt g "Stock" 0⟩,
    safe_get_str_isStr g "Brand" ""⟩,
    safe_get_str_isStr g "Sku" ""⟩,
    safe_get_float_isNum g "Weight" 0⟩,
    safe_get_str_isStr g "Warranty Information" ""⟩,
    safe_get_str_isStr g "Shipping Information" ""⟩,
    safe_get_str_isStr g "Availability Status" "In Stock"⟩,
    safe_get_str_isStr g "Return Policy" ""⟩,
    safe_get_int_isInt g "Minimum Order Quantity" 1⟩,
    safe_get_str_isStr g "Thumbnail" ""⟩,
    safe_get_str_isStr g "Version" "1.0"⟩,
    parse_dimensions_shape _⟩,
    parse_tags_shape _⟩,
    parse_reviews_shape t _⟩,
    parse_images_shape _ _ _⟩,
    parse_color_options_shape _⟩,
    parse_attachments_shape _⟩,
    parse_meta_shape _⟩

mutual

theorem pyEqv_refl : ∀ (v : PyVal), pyEqv v v = true
  | .none => rfl
  | .str s => by simp [pyEqv]
  | .int n => by simp [pyEqv, toNum]
  | .float q => by simp [pyEqv, toNum]
  | .bool b => by cases b <;> simp [pyEqv, toNum]
  | .list xs => pyEqvList_refl xs
  | .dict kvs => pyEqvDict_refl kvs

theorem pyEqvList_refl : ∀ (l : List PyVal), pyEqvList l l = true
  | [] => rfl
  | x :: xs => by
    show (pyEqv x x && pyEqvList xs xs) = true
    rw [pyEqv_refl x, pyEqvList_refl xs]
    rfl

theorem pyEqvDict_refl : ∀ (l : List (String × PyVal)), pyEqvDict l l = true
  | [] => rfl
  | (k, v) :: xs => by
    show (decide (k = k) && pyEqv v v && pyEqvDict xs xs) = true
    rw [pyEqv_refl v, pyEqvDict_refl xs]
    simp

end

/-- The getter of a row extended with one extra column `c` holding `w`. -/
def updG (g : Getter) (c : String) (w : PyVal) : Getter :=
  fun k => if k = c then some w else g k

theorem updG_self (g : Getter) (c : String) (w : PyVal) : updG g c w c = some w :=
  if_pos rfl

theorem updG_ne (g : Getter) (c : String) (w : PyVal) (f : String) (h : ¬ f = c) :
    updG g c w f = g f := if_neg h

theorem safe_get_congr (g1 g2 : Getter) (f : String) (d : PyVal)
    (conv : PyVal → Option PyVal) (h : g1 f = g2 f) :
    safe_get g1 f d conv = safe_get g2 f d conv := by
  unfold safe_get
  rw [h]

theorem rawGet_congr (g1 g2 : Getter) (f : String) (h : g1 f = g2 f) :
    rawGet g1 f = rawGet g2 f := by
  unfold rawGet
  rw [h]

theorem eqv_str_field (g : Getter) (c col : String) (hg : g c = Option.none) :
    pyEqv (safe_get g col (.str "") strConv)
      (safe_get (updG g c (.str "")) col (.str "") strConv) = true := by
  by_cases h : col = c
  · subst h
    simp [safe_get, updG, hg, strConv, pyStr, pyEqv, isna]
  · rw [safe_get_congr (updG g c (.str "")) g col _ _ (updG_ne g c _ col h)]
    exact pyEqv_refl _

theorem eqv_float_field (g : Getter) (c col : String) (hg : g c = Option.none) :
    pyEqv (safe_get g col (.int 0) floatConv)
      (safe_get (updG g c (.str "")) col (.int 0) floatConv) = true := by
  by_cases h : col = c
  · subst h
    simp [safe_get, updG, hg, floatConv, pyFloat, isna, pyEqv, toNum,
      parseFloatChars, stripList]
  · rw [safe_get_congr (updG g c (.str "")) g col _ _ (updG_ne g c _ col h)]
    exact pyEqv_refl _

theorem eqv_int_field (g : Getter) (c col : String) (hg : g c = Option.none) (n : Int) :
    pyEqv (safe_get g col (.int n) intConv)
      (safe_get (updG g c (.str "")) col (.int n) intConv) = true := by
  by_cases h : col = c
  · subst h
    simp [safe_get, updG, hg, intConv, pyInt, isna, pyEqv, toNum,
      parseIntChars, stripList]
  · rw [safe_get_congr (updG g c (.str "")) g col _ _ (updG_ne g c _ col h)]
    exact pyEqv_refl _

theorem eqv_raw_coercer (F : PyVal → PyVal) (hF : F PyVal.none = F (.str ""))
    (g : Getter) (c col : String) (hg : g c = Option.none) :
    pyEqv (F (rawGet g col)) (F (rawGet (updG g c (.str "")) col)) = true := by
  by_cases h : col = c
  · subst h
    have e1 : rawGet g col = PyVal.none := by unfold rawGet; rw [hg]; rfl
    have e2 : rawGet (updG g col (.str "")) col = PyVal.str "" := by
      unfold rawGet; rw [updG_self]; rfl
    rw [e1, e2, hF]
    exact pyEqv_refl _
  · rw [rawGet_congr (updG g c (.str "")) g col (updG_ne g c _ col h)]
    exact pyEqv_refl _

theorem parse_images_cat_falsy (v cat1 cat2 sku : PyVal)
    (h1 : pyTruthy cat1 = false) (h2 : pyTruthy cat2 = false) :
    parse_images v cat1 sku = parse_images v cat2 sku := by
  simp only [parse_images, h1, h2, Bool.and_false, Bool.false_and, if_false,
    Bool.false_eq_true]

theorem parse_images_sku_falsy (v cat sku1 sku2 : PyVal)
    (h1 : pyTruthy sku1 = false) (h2 : pyTruthy sku2 = false) :
    parse_images v cat sku1 = parse_images v cat sku2 := by
  simp only [parse_images, h1, h2, Bool.and_false, Bool.false_and, if_false,
    Bool.false_eq_true]

theorem eqv_images_field (today : String) (g : Getter) (c : String)
    (hg : g c = Option.none) :
    pyEqv
      (.list (parse_images (rawGet g "Images") (rawGet g "Category") (rawGet g "Sku")))
      (.list (parse_images (rawGet (updG g c (.str "")) "Images")
        (rawGet (updG g c (.str "")) "Category") (rawGet (updG g c (.str "")) "Sku")))
      = true := by
  by_cases h1 : ("Images" : String) = c
  · subst h1
    have e0 : rawGet g "Images" = PyVal.none := by unfold rawGet; rw [hg]; rfl
    have e1 : rawGet (updG g "Images" (.str "")) "Images" = PyVal.str "" := by
      unfold rawGet; rw [updG_self]; rfl
    have e2 : rawGet (updG g "Images" (.str "")) "Category" = rawGet g "Category" :=
      rawGet_congr _ g _ (updG_ne g _ _ _ (by decide))
    have e3 : rawGet (updG g "Images" (.str "")) "Sku" = rawGet g "Sku" :=
      rawGet_congr _ g _ (updG_ne g _ _ _ (by decide))
    rw [e0, e1, e2, e3,
      show parse_images PyVal.none (rawGet g "Category") (rawGet g "Sku") =
        parse_images (.str "") (rawGet g "Category") (rawGet g "Sku") from rfl]
    exact pyEqv_refl _
  by_cases h2 : ("Category" : String) = c
  · subst h2
    have e0 : rawGet g "Category" = PyVal.none := by unfold rawGet; rw [hg]; rfl
    have e1 : rawGet (updG g "Category" (.str "")) "Category" = PyVal.str "" := by
      unfold rawGet; rw [updG_self]; rfl
    have e2 : rawGet (updG g "Category" (.str "")) "Images" = rawGet g "Images" :=
      rawGet_congr _ g _ (updG_ne g _ _ _ (by decide))
    have e3 : rawGet (updG g "Category" (.str "")) "Sku" = rawGet g "Sku" :=
      rawGet_congr _ g _ (updG_ne g _ _ _ (by decide))
    rw [e0, e1, e2, e3,
      parse_images_cat_falsy (rawGet g "Images") PyVal.none (.str "") (rawGet g "Sku")
        rfl (by decide)]
    exact pyEqv_refl _
  by_cases h3 : ("Sku" : String) = c
  · subst h3
    have e0 : rawGet g "Sku" = PyVal.none := by unfold rawGet; rw [hg]; rfl
    have e1 : rawGet (updG g "Sku" (.str "")) "Sku" = PyVal.str "" := by
      unfold rawGet; rw [updG_self]; rfl
    have e2 : rawGet (updG g "Sku" (.str "")) "Images" = rawGet g "Images" :=
      rawGet_congr _ g _ (updG_ne g _ _ _ (by decide))
    have e3 : rawGet (updG g "Sku" (.str "")) "Category" = rawGet g "Category" :=
      rawGet_congr _ g _ (updG_ne g _ _ _ (by decide))
    rw [e0, e1, e2, e3,
      parse_images_sku_falsy (rawGet g "Images") (rawGet g "Category") PyVal.none (.str "")
        rfl (by decide)]
    exact pyEqv_refl _
  · rw [rawGet_congr (updG g c (.str "")) g "Images" (updG_ne g c _ _ h1),
      rawGet_congr (updG g c (.str "")) g "Category" (updG_ne g c _ _ h2),
      rawGet_congr (updG g c (.str "")) g "Sku" (updG_ne g c _ _ h3)]
    exact pyEqv_refl _

/-- The recognized output fields on which an absent column and a blank
cell behave alike (all fields except `availabilityStatus` and `version`,
whose defaults are non-empty strings). -/
def agreeFields : List String :=
  ["title", "description", "category", "subcategory", "price", "discountPercentage",
   "rating", "stock", "brand", "sku", "weight", "warrantyInformation",
   "shippingInformation", "returnPolicy", "minimumOrderQuantity", "thumbnail",
   "dimensions", "tags", "reviews", "images", "colorOptions", "attachments", "meta"]

/-- Two normalized records agree — up to Python value equality `==` — on
every field in `agreeFields`. -/
def productsAgreeExcept (p q : Product) : Bool :=
  agreeFields.all fun f => pyEqv (productGet p f) (productGet q f)

theorem transformG_absent_blank (today : String) (g : Getter) (c : String)
    (hg : g c = Option.none) :
    productsAgreeExcept (transformG today g)
      (transformG today (updG g c (.str ""))) = true := by
  unfold productsAgreeExcept agreeFields
  simp only [List.all_cons, List.all_nil, Bool.and_eq_true, Bool.and_true]
  refine ⟨?_, ?_, ?_, ?_, ?_, ?_, ?_, ?_, ?_, ?_, ?_, ?_, ?_, ?_, ?_, ?_, ?_, ?_,
    ?_, ?_, ?_, ?_, ?_⟩
  · rw [tg_title, tg_title]; exact eqv_str_field g c "Title" hg
  · rw [tg_description, tg_description]; exact eqv_str_field g c "Description" hg
  · rw [tg_category, tg_category]; exact eqv_str_field g c "Category" hg
  · rw [tg_subcategory, tg_subcategory]; exact eqv_str_field g c "SubCategory" hg
  · rw [tg_price, tg_price]; exact eqv_float_field g c "Price" hg
  · rw [tg_discount, tg_discount]; exact eqv_float_field g c "Discount Percentage" hg
  · rw [tg_rating, tg_rating]; exact eqv_float_field g c "Rating" hg
  · rw [tg_stock, tg_stock]; exact eqv_int_field g c "Stock" hg 0
  · rw [tg_brand, tg_brand]; exact eqv_str_field g c "Brand" hg
  · rw [tg_sku, tg_sku]; exact eqv_str_field g c "Sku" hg
  · rw [tg_weight, tg_weight]; exact eqv_float_field g c "Weight" hg
  · rw [tg_warranty, tg_warranty]; exact eqv_str_field g c "Warranty Information" hg
  · rw [tg_shipping, tg_shipping]; exact eqv_str_field g c "Shipping Information" hg
  · rw [tg_returnPolicy, tg_returnPolicy]; exact eqv_str_field g c "Return Policy" hg
  · rw [tg_minOrder, tg_minOrder]; exact eqv_int_field g c "Minimum Order Quantity" hg 1
  · rw [tg_thumbnail, tg_thumbnail]; exact eqv_str_field g c "Thumbnail" hg
  · rw [tg_dimensions, tg_dimensions]
    exact eqv_raw_coercer parse_dimensions rfl g c "Dimensions" hg
  · rw [tg_tags, tg_tags]
    exact eqv_raw_coercer (fun v => .list (parse_tags v)) rfl g c "Tags" hg
  · rw [tg_reviews, tg_reviews]
    exact eqv_raw_coercer (fun v => .list (parse_reviews today v)) rfl g c "Reviews" hg
  · rw [tg_images, tg_images]
    exact eqv_images_field today g c hg
  · rw [tg_colorOptions, tg_colorOptions]
    exact eqv_raw_coercer (fun v => .list (parse_color_options v)) rfl g c
      "Color Options" hg
  · rw [tg_attachments, tg_attachments]
    exact eqv_raw_coercer (fun v => .list (parse_attachments v)) rfl g c "Attachments" hg
  · rw [tg_meta, tg_meta]
    exact eqv_raw_coercer parse_meta rfl g c "Meta" hg

theorem rowGetter_append_blank (row : Row) (c : String)
    (hc : row.lookup c = Option.none) :
    rowGetter (row ++ [(c, CellVal.str "")]) = updG (rowGetter row) c (.str "") := by
  funext k
  unfold rowGetter updG
  by_cases h : k = c
  · subst h
    rw [List.lookup_append, hc]
    simp [List.lookup, hc, CellVal.toPy]
  · rw [List.lookup_append]
    cases hk : row.lookup k with
    | none =>
      have hbeq : (k == c) = false := beq_eq_false_iff_ne.mpr h
      simp [List.lookup, hk, hbeq, if_neg h]
    | some v => simp [hk, if_neg h]

/-- **C3 counterexample**: an absent column does *not* behave like a
blank cell.  With a blank `"Availability Status"` cell normalization
yields `""`, while with the column absent it yields the default
`"In Stock"` — `safe_get` checks `pd.isna` but not `== ''`. -/
theorem C3_counterexample :
    productGet (transform_row_to_product "2024-01-01"
        [("Title", CellVal.str "T"), ("Availability Status", CellVal.str "")])
      "availabilityStatus" = .str "" ∧
    productGet (transform_row_to_product "2024-01-01" [("Title", CellVal.str "T")])
      "availabilityStatus" = .str "In Stock" ∧
    PyVal.str "" ≠ PyVal.str "In Stock" := by
  refine ⟨rfl, rfl, ?_⟩
  intro h
  simp at h

/-- **C3 amended**.  Normalization never raises and always returns a
record in which every recognized schema field is present with a value of
its target type (`conformsB`).  An absent column behaves like a blank
cell — up to Python numeric equality `==` — on every field *except*
`availabilityStatus` and `version`, whose non-empty string defaults are
produced for an absent column but not for a blank cell (`safe_get` tests
only `pd.isna`, not `== ''`). -/
theorem C3_normalize_total_schema :
    (∀ (today : String) (row : Row),
       conformsB (transform_row_to_product today row) = true)
    ∧ (∀ (today : String) (g : Getter) (c : String), g c = Option.none →
       productsAgreeExcept (transformG today g)
         (transformG today (updG g c (.str ""))) = true)
    ∧ (∀ (today : String) (row : Row) (c : String), row.lookup c = Option.none →
       productsAgreeExcept (transform_row_to_product today row)
         (transform_row_to_product today (row ++ [(c, CellVal.str "")])) = true) := by
  refine ⟨?_, ?_, ?_⟩
  · intro today row
    exact conformsB_transformG today (rowGetter row)
  · intro today g c hg
    exact transformG_absent_blank today g c hg
  · intro today row c hc
    unfold transform_row_to_product
    rw [rowGetter_append_blank row c hc]
    exact transformG_absent_blank today (rowGetter row) c (by
      unfold rowGetter
      rw [hc]
      rfl)

/-- **C3 witness**: the amended statement at a concrete row: the record
of a one-column row conforms to the schema, and appending a blank
`Price` cell leaves all compared fields Python-equal. -/
theorem C3_witness :
    conformsB (transform_row_to_product "2024-01-01" [("Title", CellVal.str "T")]) = true ∧
    (List.lookup "Price" [("Title", CellVal.str "T")] = Option.none) ∧
    productsAgreeExcept
      (transform_row_to_product "2024-01-01" [("Title", CellVal.str "T")])
      (transform_row_to_product "2024-01-01"
        [("Title", CellVal.str "T"), ("Price", CellVal.str "")]) = true :=
  ⟨C3_normalize_total_schema.1 "2024-01-01" [("Title", CellVal.str "T")],
    rfl,
    C3_normalize_total_schema.2.2 "2024-01-01" [("Title", CellVal.str "T")] "Price" rfl⟩
